import Mathlib

/-!
Skip runtime (`compiler/runtime/runtime.c`)

A shallow embedding of the C runtime of skdb: the object header model
(`SKIP_is_string`, `sk_tag_string_hash`, `get_vtable_ptr`), the thread-local
context cells, and the global context synchronization protocol
(`SKIP_context_sync_no_lock`, `SKIP_context_sync`).

Conventions.
* Addresses and machine integers are natural numbers; `uint32_t` arithmetic is
  taken modulo `2 ^ 32`, pointer arithmetic modulo `2 ^ (8 * sizeof(void*))`.
* Every function of the C file becomes a computation in `SkM`, a state monad
  over `Runtime` whose outcome is a normal return, a `SKIP_throw_cruntime`
  (which does not return) or a `SKIP_exit` (process termination).
* Every call of a function that is declared in `runtime.h` but defined
  elsewhere is appended to `Runtime.trace`, so that the order and number of
  those calls can be stated.
-/

namespace Skdb

/-- A machine address or opaque object handle. -/
abbrev Ptr := Nat

/-- The C null pointer. -/
def NULL : Ptr := 0

/-- The two compilation targets selected by `#ifdef SKIP32` / `#ifdef SKIP64`. -/
inductive Target where
  | SKIP32
  | SKIP64
  deriving DecidableEq, Repr

/-- Error codes passed to `SKIP_throw_cruntime` (macros of `runtime.h`). -/
inductive CRuntimeError where
  | ERROR_LOCAL_CONTEXT_NULL
  | ERROR_CONTEXT_NOT_INITIALIZED
  | ERROR_SYNC_SAME_CONTEXT
  deriving DecidableEq, Repr

open CRuntimeError

/-- Calls that leave `runtime.c`, in the order they are made. -/
inductive Event where
  | sk_global_lock
  | sk_global_unlock
  | SKIP_context_get_unsafe
  | sk_context_set_unsafe (context : Ptr)
  | fprintf_stderr (format : String) (args : List Nat)
  | SKIP_throw_cruntime (code : CRuntimeError)
  | SKIP_exit (code : Nat)
  | SKIP_resolve_context (txTime : Nat) (root delta synchronizer lockF : Ptr)
  | SKIP_intern_shared (obj : Ptr)
  | sk_commit (new_root : Ptr) (sync : Nat)
  | sk_free_root (obj : Ptr)
  | sk_free_external_pointers
  | sk_print_ctx_table
  | sk_incr_ref_count (obj : Ptr)
  | SKIP_call_after_unlock (synchronizer delta : Ptr)
  deriving DecidableEq, Repr

/-- The state the runtime works on, as seen by one thread. -/
structure Runtime where
  /-- Byte-addressed memory (each cell is read modulo 256). -/
  mem : Nat → Nat
  /-- The global context cell read by `SKIP_context_get_unsafe`. -/
  context : Ptr
  /-- The global lock flag (`sk_is_locked`). -/
  sk_is_locked : Bool
  /-- Reference counts of shared roots. -/
  refcount : Ptr → Int
  /-- Handles handed out so far by `SKIP_intern_shared`. -/
  shared : List Ptr
  /-- The thread-local cell `lcontext`. -/
  lcontext : Ptr
  /-- The thread-local cell `local_ctx`. -/
  local_ctx : Ptr
  /-- Calls made so far to functions defined outside `runtime.c`. -/
  trace : List Event

/-- How the program is built and linked: the target, the `CTX_TABLE` debugging
flag, and the conflict resolver compiled from Skip code. -/
structure Build where
  target : Target
  CTX_TABLE : Bool
  resolve_context : Nat → Ptr → Ptr → Ptr → Ptr → Ptr

/-- How a call ends. -/
inductive Outcome (α : Type) where
  | ret (v : α)
  | throw (code : CRuntimeError)
  | exit (code : Nat)
  deriving DecidableEq, Repr

/-- Computations of the runtime. -/
def SkM (α : Type) : Type := Runtime → Outcome α × Runtime

/-- Return a value, leaving the state alone. -/
def SkM.pure {α : Type} (v : α) : SkM α := fun s => (Outcome.ret v, s)

/-- Sequencing: a throw or an exit skips the rest of the function. -/
def SkM.bind {α β : Type} (m : SkM α) (f : α → SkM β) : SkM β := fun s =>
  match m s with
  | (Outcome.ret v, s1) => f v s1
  | (Outcome.throw e, s1) => (Outcome.throw e, s1)
  | (Outcome.exit c, s1) => (Outcome.exit c, s1)

instance SkM.instMonad : Monad SkM where
  pure := SkM.pure
  bind := SkM.bind

/-- Append one call to the trace. -/
def log (e : Event) : SkM Unit := fun s =>
  (Outcome.ret (), { s with trace := s.trace ++ [e] })

/-- Diagnostics written with `fprintf(stderr, ...)`, compiled under `SKIP64` only. -/
def fprintf_stderr_SKIP64 (b : Build) (format : String) (args : List Nat) : SkM Unit :=
  match b.target with
  | Target.SKIP64 => log (Event.fprintf_stderr format args)
  | Target.SKIP32 => SkM.pure ()

/-- Modelled from the spec: `SKIP_throw_cruntime(code)` raises the error to the caller; control does
not come back to the statement after the call. -/
def SKIP_throw_cruntime (code : CRuntimeError) : SkM Unit := fun s =>
  (Outcome.throw code, { s with trace := s.trace ++ [Event.SKIP_throw_cruntime code] })

/-- Modelled from the spec: `SKIP_exit(code)` terminates the process with the given exit code. -/
def SKIP_exit (code : Nat) : SkM Unit := fun s =>
  (Outcome.exit code, { s with trace := s.trace ++ [Event.SKIP_exit code] })

/-- Modelled from the spec: `sk_global_lock()` takes the process-wide lock. -/
def sk_global_lock : SkM Unit := fun s =>
  (Outcome.ret (), { s with sk_is_locked := true, trace := s.trace ++ [Event.sk_global_lock] })

/-- Modelled from the spec: `sk_global_unlock()` gives the process-wide lock back. -/
def sk_global_unlock : SkM Unit := fun s =>
  (Outcome.ret (), { s with sk_is_locked := false, trace := s.trace ++ [Event.sk_global_unlock] })

/-- Modelled from the spec: `SKIP_context_get_unsafe()` is the raw read of the global context cell. -/
def SKIP_context_get_unsafe : SkM Ptr := fun s =>
  (Outcome.ret s.context, { s with trace := s.trace ++ [ Event.SKIP_context_get_unsafe] })

/-- Modelled from the spec: `sk_context_set_unsafe(context)` is the raw write of the global context cell. -/
def sk_context_set_unsafe (context : Ptr) : SkM Unit := fun s =>
  (Outcome.ret (), { s with context := context,
                            trace := s.trace ++ [ Event.sk_context_set_unsafe context] })

/-- Modelled from the spec: `SKIP_resolve_context(txTime, root, delta,
synchronizer, lockF)` is the external, deterministic conflict resolver; it
yields the merged graph. -/
def SKIP_resolve_context (b : Build) (txTime : Nat) (root delta synchronizer lockF : Ptr) :
    SkM Ptr := fun s =>
  (Outcome.ret (b.resolve_context txTime root delta synchronizer lockF),
   { s with trace := s.trace ++
       [Event.SKIP_resolve_context txTime root delta synchronizer lockF] })

/-- Modelled from the spec: `SKIP_intern_shared(obj)` copies a graph into the
shared arena and returns a new handle, distinct from its input and from every
handle handed out before; the input is not mutated. -/
def SKIP_intern_shared (obj : Ptr) : SkM Ptr := fun s =>
  let handle := s.shared.foldr max obj + 1
  (Outcome.ret handle,
   { s with shared := handle :: s.shared,
            trace := s.trace ++ [Event.SKIP_intern_shared obj] })

/-- Modelled from the spec: `sk_commit(new_root, sync)` installs `new_root` as
the global root; the `sync` flag only asks for the commit to be published. -/
def sk_commit (new_root : Ptr) (sync : Nat) : SkM Unit := fun s =>
  (Outcome.ret (), { s with context := new_root,
                            trace := s.trace ++ [Event.sk_commit new_root sync] })

/-- Modelled from the spec: `sk_free_root(obj)` decrements the reference count
of `obj`. -/
def sk_free_root (obj : Ptr) : SkM Unit := fun s =>
  (Outcome.ret (), { s with refcount := fun p => if p = obj then s.refcount p - 1 else s.refcount p,
                            trace := s.trace ++ [Event.sk_free_root obj] })

/-- Modelled from the spec: `sk_incr_ref_count(obj)` increments the reference
count of `obj`. -/
def sk_incr_ref_count (obj : Ptr) : SkM Unit := fun s =>
  (Outcome.ret (), { s with refcount := fun p => if p = obj then s.refcount p + 1 else s.refcount p,
                            trace := s.trace ++ [Event.sk_incr_ref_count obj] })

/-- Modelled from the spec: `sk_free_external_pointers()` releases foreign
handles that became unreachable; it touches no state modelled here. -/
def sk_free_external_pointers : SkM Unit := log Event.sk_free_external_pointers

/-- Modelled from the spec: `sk_print_ctx_table()` is a debugging print. -/
def sk_print_ctx_table : SkM Unit := log Event.sk_print_ctx_table

/-- Modelled from the spec: `SKIP_call_after_unlock(synchronizer, delta)` is
the post-commit notification. -/
def SKIP_call_after_unlock (synchronizer delta : Ptr) : SkM Unit :=
  log (Event.SKIP_call_after_unlock synchronizer delta)

/-- The C function `SKIP_context_sync_no_lock` (runtime.c, lines 197-226). -/
def SKIP_context_sync_no_lock (b : Build) (txTime : Nat) (old_root delta synchronizer : Ptr)
    (sync : Nat) (lockF : Ptr) : SkM Ptr := do
  let root ← SKIP_context_get_unsafe
  if root = NULL then
    fprintf_stderr_SKIP64 b "Internal error: you forgot to initialize the context" []
    SKIP_throw_cruntime ERROR_CONTEXT_NOT_INITIALIZED
  if root = delta ∨ old_root = delta then
    fprintf_stderr_SKIP64 b "Internal error: tried to sync with the same context" []
    SKIP_throw_cruntime ERROR_SYNC_SAME_CONTEXT
  let rtmp ← SKIP_resolve_context b txTime root delta synchronizer lockF
  let new_root ← SKIP_intern_shared rtmp
  sk_commit new_root sync
  sk_free_root old_root
  sk_free_root root
  sk_free_root root
  sk_free_external_pointers
  if b.CTX_TABLE then
    sk_print_ctx_table
  sk_incr_ref_count new_root
  return new_root

/-- The C function `SKIP_context_sync` (runtime.c, lines 228-236). -/
def SKIP_context_sync (b : Build) (txTime : Nat) (old_root delta synchronizer : Ptr)
    (sync : Nat) (lockF : Ptr) : SkM Ptr := do
  sk_global_lock
  let new_root ← SKIP_context_sync_no_lock b txTime old_root delta synchronizer sync lockF
  sk_global_unlock
  SKIP_call_after_unlock synchronizer delta
  return new_root

/-- The events a call appended to the trace. -/
def newEvents (s s1 : Runtime) : List Event := s1.trace.drop s.trace.length

/-- A small initial state: empty memory, no root, nothing locked. -/
def Runtime.empty : Runtime :=
  { mem := fun _ => 0, context := NULL, sk_is_locked := false, refcount := fun _ => 0,
    shared := [], lcontext := NULL, local_ctx := NULL, trace := [] }

/-- A build for the 64-bit target whose resolver returns the delta. -/
def Build.example64 : Build :=
  { target := Target.SKIP64, CTX_TABLE := false,
    resolve_context := fun _ _ delta _ _ => delta }

/-- The diagnostic events of a build: one `fprintf` under `SKIP64`, none under `SKIP32`. -/
def diag (b : Build) (format : String) (args : List Nat) : List Event :=
  match b.target with
  | Target.SKIP64 => [Event.fprintf_stderr format args]
  | Target.SKIP32 => []

/-- The events of the optional `sk_print_ctx_table()` call. -/
def ctxTableEvents (b : Build) : List Event :=
  if b.CTX_TABLE then [Event.sk_print_ctx_table] else []

/-- The merged graph the resolver yields for a call made in state `s`. -/
def mergedOf (b : Build) (txTime : Nat) (delta synchronizer lockF : Ptr) (s : Runtime) : Ptr :=
  b.resolve_context txTime s.context delta synchronizer lockF

/-- The handle `SKIP_intern_shared` hands out for `obj` in state `s`. -/
def internOf (obj : Ptr) (s : Runtime) : Ptr := s.shared.foldr max obj + 1

/-- The new root a successful call made in state `s` installs. -/
def newRootOf (b : Build) (txTime : Nat) (delta synchronizer lockF : Ptr) (s : Runtime) : Ptr :=
  internOf (mergedOf b txTime delta synchronizer lockF s) s

/-- The calls a successful `SKIP_context_sync_no_lock` makes, in order. -/
def syncEvents (b : Build) (txTime : Nat) (old_root delta synchronizer : Ptr)
    (sync : Nat) (lockF : Ptr) (s : Runtime) : List Event :=
  [ Event.SKIP_context_get_unsafe,
    Event.SKIP_resolve_context txTime s.context delta synchronizer lockF,
    Event.SKIP_intern_shared (mergedOf b txTime delta synchronizer lockF s),
    Event.sk_commit (newRootOf b txTime delta synchronizer lockF s) sync,
    Event.sk_free_root old_root,
    Event.sk_free_root s.context,
    Event.sk_free_root s.context,
    Event.sk_free_external_pointers] ++ ctxTableEvents b ++
  [Event.sk_incr_ref_count (newRootOf b txTime delta synchronizer lockF s)]

/-- The C function `SKIP_context_init` (runtime.c, lines 155-160). -/
def SKIP_context_init (obj : Ptr) : SkM Unit := do
  sk_global_lock
  let context ← SKIP_intern_shared obj
  sk_context_set_unsafe context
  sk_global_unlock

/-- The resolver call. -/
def Event.isResolve : Event → Bool
  | Event.SKIP_resolve_context _ _ _ _ _ => true
  | _ => false

/-- The intern call. -/
def Event.isIntern : Event → Bool
  | Event.SKIP_intern_shared _ => true
  | _ => false

/-- The commit call. -/
def Event.isCommit : Event → Bool
  | Event.sk_commit _ _ => true
  | _ => false

/-- A `sk_free_root` call. -/
def Event.isFreeRoot : Event → Bool
  | Event.sk_free_root _ => true
  | _ => false

/-- A `sk_incr_ref_count` call. -/
def Event.isIncrRefCount : Event → Bool
  | Event.sk_incr_ref_count _ => true
  | _ => false

/-- The post-commit notification. -/
def Event.isCallback : Event → Bool
  | Event.SKIP_call_after_unlock _ _ => true
  | _ => false

/-- Taking or giving back the global lock. -/
def Event.isLockOp : Event → Bool
  | Event.sk_global_lock => true
  | Event.sk_global_unlock => true
  | _ => false

/-- The calls of the merge-and-commit sequence: resolver, intern, commit,
`sk_free_root` and `sk_incr_ref_count`. -/
def Event.isProtocolCall (e : Event) : Bool :=
  e.isResolve || e.isIntern || e.isCommit || e.isFreeRoot || e.isIncrRefCount

/-- The calls that release or take references: `sk_free_root`,
`sk_free_external_pointers` and `sk_incr_ref_count`. -/
def Event.isRefCountOp : Event → Bool
  | Event.sk_free_root _ => true
  | Event.sk_free_external_pointers => true
  | Event.sk_incr_ref_count _ => true
  | _ => false

/-- The events that follow the first commit. -/
def afterCommit (evs : List Event) : List Event :=
  (evs.dropWhile (fun e => !e.isCommit)).drop 1

/-- Replays the lock and unlock calls of a trace, starting with the lock held
or not, and lists whether the lock was held at each notification call. -/
def heldAtCallbacks : Bool → List Event → List Bool
  | _, [] => []
  | _, Event.sk_global_lock :: es => heldAtCallbacks true es
  | _, Event.sk_global_unlock :: es => heldAtCallbacks false es
  | held, Event.SKIP_call_after_unlock _ _ :: es => held :: heldAtCallbacks held es
  | held, _ :: es => heldAtCallbacks held es

/-- A handle the caller can hold: null, or one handed out by `SKIP_intern_shared`. -/
def Runtime.knows (s : Runtime) (p : Ptr) : Prop := p = NULL ∨ p ∈ s.shared

instance Runtime.instDecidableKnows (s : Runtime) (p : Ptr) : Decidable (s.knows p) :=
  inferInstanceAs (Decidable (p = NULL ∨ p ∈ s.shared))

/-- The state of the scenario after `context_init`: the root is `R0 = 11`. -/
def scenario0 : Runtime := (SKIP_context_init 10 Runtime.empty).2

/-- The state of the scenario after the first sync, of delta `D1 = 20` against `R0`. -/
def scenario1 : Runtime := (SKIP_context_sync Build.example64 1 11 20 9 1 0 scenario0).2

/-! ## Object header model -/

/-- The C global `sk_string_hash_tag` (runtime.c, line 24). -/
def sk_string_hash_tag : Nat := 0x80000000

/-- The C function `sk_tag_string_hash` (runtime.c, lines 37-39), on `uint32_t`. -/
def sk_tag_string_hash (untagged_hash : Nat) : Nat :=
  (untagged_hash ||| sk_string_hash_tag) % 2 ^ 32

/-- The C operator `~` on a `uint32_t`. -/
def complement32 (x : Nat) : Nat := 2 ^ 32 - 1 - x % 2 ^ 32

/-- The size of a pointer in bytes: `sizeof(void*)`. -/
def sizeof_ptr : Target → Nat
  | Target.SKIP32 => 4
  | Target.SKIP64 => 8

/-- Pointer subtraction in bytes, wrapping at the width of `uintptr_t`. -/
def ptr_sub (t : Target) (p n : Nat) : Ptr :=
  (p % 2 ^ (8 * sizeof_ptr t) + 2 ^ (8 * sizeof_ptr t) - n % 2 ^ (8 * sizeof_ptr t))
    % 2 ^ (8 * sizeof_ptr t)

/-- Pointer addition in bytes, wrapping at the width of `uintptr_t`. -/
def ptr_add (t : Target) (p n : Nat) : Ptr := (p + n) % 2 ^ (8 * sizeof_ptr t)

/-- Little-endian read of `n` bytes at address `a`. -/
def load_le (mem : Nat → Nat) (a : Nat) : Nat → Nat
  | 0 => 0
  | n + 1 => mem a % 256 + 256 * load_le mem (a + 1) n

/-- Modelled from the spec: `sk_string_header_size`, the size of the string
header, which "consists of 2 uint32 values: first the size, then the hash". -/
def sk_string_header_size : Nat := 8

/-- Modelled from the spec: the offset of the field `hash` in `sk_string_t`,
which comes after the `uint32_t` field `size`. -/
def sk_string_t.offsetof_hash : Nat := 4

/-- The C function `get_sk_string` (runtime.c, lines 20-22). -/
def get_sk_string (b : Build) (obj : Ptr) : Ptr := ptr_sub b.target obj sk_string_header_size

/-- The read `str->hash` of the `uint32_t` field of a `sk_string_t*`. -/
def sk_string_t.hash (str : Ptr) : SkM Nat := fun s =>
  (Outcome.ret (load_le s.mem (str + sk_string_t.offsetof_hash) 4), s)

/-- The C function `get_vtable_ptr` (runtime.c, lines 41-44): the address of
the pointer-sized slot before the object. -/
def get_vtable_ptr (b : Build) (skip_object : Ptr) : Ptr :=
  ptr_sub b.target skip_object (1 * sizeof_ptr b.target)

/-- The C function `SKIP_is_string` (runtime.c, lines 26-35). -/
def SKIP_is_string (b : Build) (obj : Ptr) : SkM Nat := do
  let res := (← sk_string_t.hash (get_sk_string b obj)) &&& sk_string_hash_tag
  if res = 0 ∧ get_vtable_ptr b obj &&& 0x7 ≠ 0 then
    fprintf_stderr_SKIP64 b "misaligned vtable: %lX\n" [get_vtable_ptr b obj &&& 0xF]
    SKIP_exit 124
  return res

/-- The header hash word of an object, as `SKIP_is_string` reads it. -/
def hashField (b : Build) (s : Runtime) (obj : Ptr) : Nat :=
  load_le s.mem (get_sk_string b obj + sk_string_t.offsetof_hash) 4

/-- The value stored in the slot `get_vtable_ptr` points to. -/
def vtableSlotValue (b : Build) (s : Runtime) (obj : Ptr) : Nat :=
  load_le s.mem (get_vtable_ptr b obj) (sizeof_ptr b.target)

/-- Memory holding the four given bytes at `a`, `a + 1`, `a + 2`, `a + 3` and zero elsewhere. -/
def memWithWord (a b0 b1 b2 b3 : Nat) : Nat → Nat := fun x =>
  if x = a then b0 else if x = a + 1 then b1 else if x = a + 2 then b2
  else if x = a + 3 then b3 else 0

/-- A state whose memory holds the hash word `0x80000005`, that is
`tag_string_hash(5)`, of a string header in the bytes `0x1008 .. 0x100B`. -/
def stringHeaderState : Runtime := { Runtime.empty with mem := memWithWord 0x1008 5 0 0 0x80 }

/-- A state whose memory holds at `0x1000` an object header whose value is `0x2001`. -/
def oddHeaderState : Runtime := { Runtime.empty with mem := memWithWord 0x1000 0x01 0x20 0 0 }

/-- The read `*p` of a pointer-sized value. -/
def load_ptr (b : Build) (p : Ptr) : SkM Ptr := fun s =>
  (Outcome.ret (load_le s.mem p (sizeof_ptr b.target)), s)

/-- The C function `get_gc_type` (runtime.c, lines 46-58). -/
def get_gc_type (b : Build) (skip_object : Ptr) : SkM Ptr := do
  let vtable_ptr := get_vtable_ptr b skip_object
  if vtable_ptr &&& 0x7 ≠ 0 then
    fprintf_stderr_SKIP64 b "misaligned vtable: %lX\n" [vtable_ptr &&& 0xF]
    SKIP_exit 125
  let slot1 := ptr_add b.target (← load_ptr b vtable_ptr) (1 * sizeof_ptr b.target)
  return (← load_ptr b slot1)

/-- The content of slot `i` of the vtable at address `vtable`: its `i`-th
pointer-sized entry. -/
def vtableSlot (b : Build) (s : Runtime) (vtable : Ptr) (i : Nat) : Ptr :=
  load_le s.mem (ptr_add b.target vtable (i * sizeof_ptr b.target)) (sizeof_ptr b.target)

/-- Memory holding the listed bytes (address, value), and zero elsewhere. -/
def memOfBytes : List (Nat × Nat) → Nat → Nat
  | [], _ => 0
  | (a, v) :: rest, x => if x = a then v else memOfBytes rest x

/-- A state holding an object at `0x1008` whose header slot at `0x1000` points
to a vtable at `0x2000`; slot 0 of the vtable holds `0x3000`, slot 1 `0x4000`. -/
def vtableState : Runtime :=
  { Runtime.empty with
    mem := memOfBytes [(0x1001, 0x20), (0x2001, 0x30), (0x2009, 0x40)] }

/-- A build for the 32-bit target whose resolver returns the delta. -/
def Build.example32 : Build :=
  { target := Target.SKIP32, CTX_TABLE := false,
    resolve_context := fun _ _ delta _ _ => delta }

/-! ## Thread-local context cells -/

/-- The read of the thread-local variable `lcontext`. -/
def read_lcontext : SkM Ptr := fun s => (Outcome.ret s.lcontext, s)

/-- The write of the thread-local variable `lcontext`. -/
def write_lcontext (v : Ptr) : SkM Unit := fun s => (Outcome.ret (), { s with lcontext := v })

/-- The read of the thread-local variable `local_ctx`. -/
def read_local_ctx : SkM Ptr := fun s => (Outcome.ret s.local_ctx, s)

/-- The write of the thread-local variable `local_ctx`. -/
def write_local_ctx (v : Ptr) : SkM Unit := fun s => (Outcome.ret (), { s with local_ctx := v })

/-- The C function `SKIP_has_local_context` (runtime.c, lines 80-82). -/
def SKIP_has_local_context : SkM Int := do
  return (if (← read_lcontext) ≠ NULL then 1 else 0)

/-- The C function `SKIP_set_local_context` (runtime.c, lines 84-86). -/
def SKIP_set_local_context (context : Ptr) : SkM Unit :=
  write_lcontext context

/-- The C function `SKIP_remove_local_context` (runtime.c, lines 88-90). -/
def SKIP_remove_local_context : SkM Unit :=
  write_lcontext NULL

/-- The C function `SKIP_get_local_context` (runtime.c, lines 92-94). -/
def SKIP_get_local_context : SkM Ptr := do
  return (← read_lcontext)

/-- The C function `SKIP_unsafe_set_local_context` (runtime.c, lines 137-139). -/
def SKIP_unsafe_set_local_context (obj : Ptr) : SkM Unit :=
  write_local_ctx obj

/-- The C function `SKIP_unsafe_remove_local_context` (runtime.c, lines
141-143); its argument is not used. -/
def SKIP_unsafe_remove_local_context (_obj : Ptr) : SkM Unit :=
  write_local_ctx NULL

/-- The C function `SKIP_unsafe_get_local_context` (runtime.c, lines 145-153). -/
def SKIP_unsafe_get_local_context (b : Build) : SkM Ptr := do
  if (← read_local_ctx) = NULL then
    fprintf_stderr_SKIP64 b "Error: local context is not set" []
    SKIP_throw_cruntime ERROR_LOCAL_CONTEXT_NULL
  return (← read_local_ctx)

/-- A call that writes the checked local-context cell. -/
inductive LocalCall where
  | set_local_context (context : Ptr)
  | remove_local_context
  deriving DecidableEq, Repr

/-- Makes one call. -/
def LocalCall.run : LocalCall → SkM Unit
  | LocalCall.set_local_context context => SKIP_set_local_context context
  | LocalCall.remove_local_context => SKIP_remove_local_context

/-- Makes the calls of a sequence, in order. -/
def runLocalCalls : List LocalCall → SkM Unit
  | [] => SkM.pure ()
  | c :: cs => do
    c.run
    runLocalCalls cs

/-- What the spec says `get_local_context` returns after a sequence of calls:
the argument of the most recent `set_local_context`, or null if there was none
or if `clear_local_context` was called after it. -/
def expectedLocalContext (calls : List LocalCall) : Ptr :=
  match calls.getLast? with
  | some (LocalCall.set_local_context context) => context
  | some LocalCall.remove_local_context => NULL
  | none => NULL

/-! ## Lemmas on the synchronization protocol -/

theorem sync_no_lock_uninit (b : Build) (txTime : Nat) (old_root delta synchronizer : Ptr)
    (sync : Nat) (lockF : Ptr) (s : Runtime) (h : s.context = NULL) :
    SKIP_context_sync_no_lock b txTime old_root delta synchronizer sync lockF s =
      (Outcome.throw ERROR_CONTEXT_NOT_INITIALIZED,
       { s with trace := s.trace ++ ([ Event.SKIP_context_get_unsafe] ++
           diag b "Internal error: you forgot to initialize the context" [] ++
           [Event.SKIP_throw_cruntime ERROR_CONTEXT_NOT_INITIALIZED]) }) := by
  cases hb : b.target <;>
    simp [SKIP_context_sync_no_lock, bind, SkM.bind, SKIP_context_get_unsafe, h,
      fprintf_stderr_SKIP64, hb, SKIP_throw_cruntime, log, diag, SkM.pure]

theorem sync_no_lock_same (b : Build) (txTime : Nat) (old_root delta synchronizer : Ptr)
    (sync : Nat) (lockF : Ptr) (s : Runtime) (h0 : s.context ≠ NULL)
    (h : s.context = delta ∨ old_root = delta) :
    SKIP_context_sync_no_lock b txTime old_root delta synchronizer sync lockF s =
      (Outcome.throw ERROR_SYNC_SAME_CONTEXT,
       { s with trace := s.trace ++ ([ Event.SKIP_context_get_unsafe] ++
           diag b "Internal error: tried to sync with the same context" [] ++
           [Event.SKIP_throw_cruntime ERROR_SYNC_SAME_CONTEXT]) }) := by
  cases hb : b.target <;>
    simp [SKIP_context_sync_no_lock, bind, SkM.bind, SKIP_context_get_unsafe, h0, h,
      fprintf_stderr_SKIP64, hb, SKIP_throw_cruntime, log, diag, SkM.pure, pure]

theorem sync_no_lock_ok (b : Build) (txTime : Nat) (old_root delta synchronizer : Ptr)
    (sync : Nat) (lockF : Ptr) (s : Runtime) (h0 : s.context ≠ NULL)
    (h1 : s.context ≠ delta) (h2 : old_root ≠ delta) :
    let r := SKIP_context_sync_no_lock b txTime old_root delta synchronizer sync lockF s
    let new_root := newRootOf b txTime delta synchronizer lockF s
    r.1 = Outcome.ret new_root ∧
    r.2.trace = s.trace ++ syncEvents b txTime old_root delta synchronizer sync lockF s ∧
    r.2.context = new_root ∧
    r.2.shared = new_root :: s.shared ∧
    (∀ p, r.2.refcount p = s.refcount p - (if p = old_root then 1 else 0)
        - (if p = s.context then 2 else 0) + (if p = new_root then 1 else 0)) ∧
    r.2.sk_is_locked = s.sk_is_locked ∧ r.2.mem = s.mem ∧
    r.2.lcontext = s.lcontext ∧ r.2.local_ctx = s.local_ctx := by
  cases hc : b.CTX_TABLE <;>
    simp [SKIP_context_sync_no_lock, bind, SkM.bind, SKIP_context_get_unsafe, h0, h1, h2,
      SKIP_resolve_context, SKIP_intern_shared, sk_commit, sk_free_root,
      sk_free_external_pointers, sk_print_ctx_table, sk_incr_ref_count, hc, log, SkM.pure, pure,
      syncEvents, ctxTableEvents, newRootOf, internOf, mergedOf] <;>
    intro p <;> split_ifs <;> omega

theorem sync_uninit (b : Build) (txTime : Nat) (old_root delta synchronizer : Ptr)
    (sync : Nat) (lockF : Ptr) (s : Runtime) (h : s.context = NULL) :
    SKIP_context_sync b txTime old_root delta synchronizer sync lockF s =
      (Outcome.throw ERROR_CONTEXT_NOT_INITIALIZED,
       { s with sk_is_locked := true,
                trace := s.trace ++ ([Event.sk_global_lock, Event.SKIP_context_get_unsafe] ++
           diag b "Internal error: you forgot to initialize the context" [] ++
           [Event.SKIP_throw_cruntime ERROR_CONTEXT_NOT_INITIALIZED]) }) := by
  cases hb : b.target <;>
    simp [SKIP_context_sync, SKIP_context_sync_no_lock, bind, SkM.bind, sk_global_lock,
      SKIP_context_get_unsafe, h, fprintf_stderr_SKIP64, hb, SKIP_throw_cruntime, log, diag,
      SkM.pure]

theorem sync_same (b : Build) (txTime : Nat) (old_root delta synchronizer : Ptr)
    (sync : Nat) (lockF : Ptr) (s : Runtime) (h0 : s.context ≠ NULL)
    (h : s.context = delta ∨ old_root = delta) :
    SKIP_context_sync b txTime old_root delta synchronizer sync lockF s =
      (Outcome.throw ERROR_SYNC_SAME_CONTEXT,
       { s with sk_is_locked := true,
                trace := s.trace ++ ([Event.sk_global_lock, Event.SKIP_context_get_unsafe] ++
           diag b "Internal error: tried to sync with the same context" [] ++
           [Event.SKIP_throw_cruntime ERROR_SYNC_SAME_CONTEXT]) }) := by
  cases hb : b.target <;>
    simp [SKIP_context_sync, SKIP_context_sync_no_lock, bind, SkM.bind, sk_global_lock,
      SKIP_context_get_unsafe, h0, h, fprintf_stderr_SKIP64, hb, SKIP_throw_cruntime, log, diag,
      SkM.pure, pure]

theorem sync_ok (b : Build) (txTime : Nat) (old_root delta synchronizer : Ptr)
    (sync : Nat) (lockF : Ptr) (s : Runtime) (h0 : s.context ≠ NULL)
    (h1 : s.context ≠ delta) (h2 : old_root ≠ delta) :
    (SKIP_context_sync b txTime old_root delta synchronizer sync lockF s).1 =
      Outcome.ret (newRootOf b txTime delta synchronizer lockF s) ∧
    (SKIP_context_sync b txTime old_root delta synchronizer sync lockF s).2.trace =
      s.trace ++ (Event.sk_global_lock ::
        syncEvents b txTime old_root delta synchronizer sync lockF s ++
        [Event.sk_global_unlock, Event.SKIP_call_after_unlock synchronizer delta]) ∧
    (SKIP_context_sync b txTime old_root delta synchronizer sync lockF s).2.context =
      newRootOf b txTime delta synchronizer lockF s ∧
    (SKIP_context_sync b txTime old_root delta synchronizer sync lockF s).2.shared =
      newRootOf b txTime delta synchronizer lockF s :: s.shared ∧
    (∀ p, (SKIP_context_sync b txTime old_root delta synchronizer sync lockF s).2.refcount p =
        s.refcount p - (if p = old_root then 1 else 0) - (if p = s.context then 2 else 0)
          + (if p = newRootOf b txTime delta synchronizer lockF s then 1 else 0)) ∧
    (SKIP_context_sync b txTime old_root delta synchronizer sync lockF s).2.sk_is_locked = false := by
  cases hc : b.CTX_TABLE <;>
    simp [SKIP_context_sync, SKIP_context_sync_no_lock, bind, SkM.bind, sk_global_lock,
      sk_global_unlock, SKIP_call_after_unlock, SKIP_context_get_unsafe, h0, h1, h2,
      SKIP_resolve_context, SKIP_intern_shared, sk_commit, sk_free_root,
      sk_free_external_pointers, sk_print_ctx_table, sk_incr_ref_count, hc, log, SkM.pure, pure,
      syncEvents, ctxTableEvents, newRootOf, internOf, mergedOf] <;>
    intro p <;> split_ifs <;> omega

theorem newEvents_append (s s1 : Runtime) (evs : List Event) (h : s1.trace = s.trace ++ evs) :
    newEvents s s1 = evs := by
  simp [newEvents, h]

theorem diag_quiet (b : Build) (format : String) (args : List Nat) :
    ∀ e ∈ diag b format args, e.isProtocolCall = false ∧ e.isRefCountOp = false := by
  intro e he
  cases hb : b.target <;> simp [diag, hb] at he
  subst he
  exact ⟨rfl, rfl⟩

/-! ## The claims -/

/-- C1 (amended): in every state whose global root is non-null, a call of
`context_sync` or of `context_sync_no_lock` in which `delta` equals `old_root`
or equals the current global root fails with `SyncSameContext`, leaves the
global root unchanged, and makes no resolver, intern, commit, `free_root` or
`incr_ref_count` call. -/
theorem C1_sync_same_context (b : Build) (txTime : Nat) (old_root delta synchronizer : Ptr)
    (sync : Nat) (lockF : Ptr) (s : Runtime) (h0 : s.context ≠ NULL)
    (h : delta = old_root ∨ delta = s.context) :
    ((SKIP_context_sync_no_lock b txTime old_root delta synchronizer sync lockF s).1 =
        Outcome.throw ERROR_SYNC_SAME_CONTEXT ∧
      (SKIP_context_sync_no_lock b txTime old_root delta synchronizer sync lockF s).2.context =
        s.context ∧
      ∀ e ∈ newEvents s
          (SKIP_context_sync_no_lock b txTime old_root delta synchronizer sync lockF s).2,
        e.isProtocolCall = false) ∧
    ((SKIP_context_sync b txTime old_root delta synchronizer sync lockF s).1 =
        Outcome.throw ERROR_SYNC_SAME_CONTEXT ∧
      (SKIP_context_sync b txTime old_root delta synchronizer sync lockF s).2.context =
        s.context ∧
      ∀ e ∈ newEvents s
          (SKIP_context_sync b txTime old_root delta synchronizer sync lockF s).2,
        e.isProtocolCall = false) := by
  have h' : s.context = delta ∨ old_root = delta := by
    rcases h with h | h
    · exact Or.inr h.symm
    · exact Or.inl h.symm
  rw [sync_no_lock_same b txTime old_root delta synchronizer sync lockF s h0 h',
    sync_same b txTime old_root delta synchronizer sync lockF s h0 h']
  refine ⟨⟨rfl, rfl, ?_⟩, rfl, rfl, ?_⟩
  · intro e he
    simp only [newEvents, List.drop_left, List.mem_append, List.mem_singleton] at he
    rcases he with (rfl | he) | rfl
    · rfl
    · exact (diag_quiet b _ _ e he).1
    · rfl
  · intro e he
    simp only [newEvents, List.drop_left, List.mem_append, List.mem_singleton, List.mem_cons,
      List.not_mem_nil, or_false] at he
    rcases he with ((rfl | rfl) | he) | rfl
    · rfl
    · rfl
    · exact (diag_quiet b _ _ e he).1
    · rfl

/-- C1 (witness): a state with root `11`, synced with `delta = old_root = 11`. -/
theorem C1_sync_same_context_witness :
    scenario0.context ≠ NULL ∧ ((11 : Ptr) = 11 ∨ (11 : Ptr) = scenario0.context) ∧
    (SKIP_context_sync Build.example64 1 11 11 9 0 0 scenario0).1 =
      Outcome.throw ERROR_SYNC_SAME_CONTEXT ∧
    (SKIP_context_sync Build.example64 1 11 11 9 0 0 scenario0).2.context = scenario0.context :=
  ⟨by decide, by decide,
   (C1_sync_same_context Build.example64 1 11 11 9 0 0 scenario0 (by decide) (by decide)).2.1,
   (C1_sync_same_context Build.example64 1 11 11 9 0 0 scenario0 (by decide) (by decide)).2.2.1⟩

/-- C1 (counterexample): while the global root is null, a call with
`delta = old_root`, and a call whose null `delta` equals the null global root,
fail with `ContextNotInitialized`, not with `SyncSameContext`. -/
theorem C1_counterexample :
    ((5 : Ptr) = 5 ∧
      (SKIP_context_sync Build.example64 1 5 5 9 0 0 Runtime.empty).1 =
        Outcome.throw ERROR_CONTEXT_NOT_INITIALIZED ∧
      (SKIP_context_sync_no_lock Build.example64 1 5 5 9 0 0 Runtime.empty).1 ≠
        Outcome.throw ERROR_SYNC_SAME_CONTEXT) ∧
    (NULL = Runtime.empty.context ∧
      (SKIP_context_sync Build.example64 1 7 NULL 9 0 0 Runtime.empty).1 =
        Outcome.throw ERROR_CONTEXT_NOT_INITIALIZED ∧
      (SKIP_context_sync_no_lock Build.example64 1 7 NULL 9 0 0 Runtime.empty).1 ≠
        Outcome.throw ERROR_SYNC_SAME_CONTEXT) := by
  decide

/-- C2: whatever `txTime`, `old_root`, `delta` (a null one and one equal to
`old_root` included), `synchronizer`, `sync` and `lockF` are, a call of
`context_sync` or of `context_sync_no_lock` made while the global root is null
fails with `ContextNotInitialized`; the only calls it makes are the lock (for
`context_sync`), the read of the global cell, the diagnostic and the throw, so
no resolver, intern, commit or reference-count call precedes the failure. -/
theorem C2_sync_before_init (b : Build) (txTime : Nat) (old_root delta synchronizer : Ptr)
    (sync : Nat) (lockF : Ptr) (s : Runtime) (h : s.context = NULL) :
    ((SKIP_context_sync_no_lock b txTime old_root delta synchronizer sync lockF s).1 =
        Outcome.throw ERROR_CONTEXT_NOT_INITIALIZED ∧
      newEvents s (SKIP_context_sync_no_lock b txTime old_root delta synchronizer sync lockF s).2 =
        [ Event.SKIP_context_get_unsafe] ++
          diag b "Internal error: you forgot to initialize the context" [] ++
          [Event.SKIP_throw_cruntime ERROR_CONTEXT_NOT_INITIALIZED] ∧
      ∀ e ∈ newEvents s
          (SKIP_context_sync_no_lock b txTime old_root delta synchronizer sync lockF s).2,
        e.isProtocolCall = false ∧ e.isRefCountOp = false) ∧
    ((SKIP_context_sync b txTime old_root delta synchronizer sync lockF s).1 =
        Outcome.throw ERROR_CONTEXT_NOT_INITIALIZED ∧
      newEvents s (SKIP_context_sync b txTime old_root delta synchronizer sync lockF s).2 =
        [Event.sk_global_lock, Event.SKIP_context_get_unsafe] ++
          diag b "Internal error: you forgot to initialize the context" [] ++
          [Event.SKIP_throw_cruntime ERROR_CONTEXT_NOT_INITIALIZED] ∧
      ∀ e ∈ newEvents s
          (SKIP_context_sync b txTime old_root delta synchronizer sync lockF s).2,
        e.isProtocolCall = false ∧ e.isRefCountOp = false) := by
  rw [sync_no_lock_uninit b txTime old_root delta synchronizer sync lockF s h,
    sync_uninit b txTime old_root delta synchronizer sync lockF s h]
  refine ⟨⟨rfl, by simp [newEvents], ?_⟩, rfl, by simp [newEvents], ?_⟩
  · intro e he
    simp only [newEvents, List.drop_left, List.mem_append, List.mem_singleton] at he
    rcases he with (rfl | he) | rfl
    · exact ⟨rfl, rfl⟩
    · exact diag_quiet b _ _ e he
    · exact ⟨rfl, rfl⟩
  · intro e he
    simp only [newEvents, List.drop_left, List.mem_append, List.mem_singleton, List.mem_cons,
      List.not_mem_nil, or_false] at he
    rcases he with ((rfl | rfl) | he) | rfl
    · exact ⟨rfl, rfl⟩
    · exact ⟨rfl, rfl⟩
    · exact diag_quiet b _ _ e he
    · exact ⟨rfl, rfl⟩

/-- C2 (witness): the empty state, whose root is null, with `delta = old_root = 5`. -/
theorem C2_sync_before_init_witness :
    Runtime.empty.context = NULL ∧
    (SKIP_context_sync_no_lock Build.example64 1 5 5 9 0 0 Runtime.empty).1 =
      Outcome.throw ERROR_CONTEXT_NOT_INITIALIZED ∧
    (SKIP_context_sync Build.example64 1 5 5 9 0 0 Runtime.empty).1 =
      Outcome.throw ERROR_CONTEXT_NOT_INITIALIZED :=
  ⟨rfl, (C2_sync_before_init Build.example64 1 5 5 9 0 0 Runtime.empty rfl).1.1,
   (C2_sync_before_init Build.example64 1 5 5 9 0 0 Runtime.empty rfl).2.1⟩

/-- C3: a call of `context_sync_no_lock` that passes both checks returns the
handle `intern_shared` gives for `resolve_context(txTime, root, delta,
synchronizer, lockF)`, where `root` is the global root read at entry; the
resolver and `intern_shared` are each called exactly once, with these
arguments, and `commit` is called exactly once, with that new root and the
caller's `sync` flag. -/
theorem C3_sync_no_lock_result (b : Build) (txTime : Nat) (old_root delta synchronizer : Ptr)
    (sync : Nat) (lockF : Ptr) (s : Runtime) (h0 : s.context ≠ NULL)
    (h1 : s.context ≠ delta) (h2 : old_root ≠ delta) :
    (SKIP_context_sync_no_lock b txTime old_root delta synchronizer sync lockF s).1 =
      (SKIP_intern_shared (b.resolve_context txTime s.context delta synchronizer lockF) s).1 ∧
    (SKIP_context_sync_no_lock b txTime old_root delta synchronizer sync lockF s).1 =
      Outcome.ret (newRootOf b txTime delta synchronizer lockF s) ∧
    (newEvents s
        (SKIP_context_sync_no_lock b txTime old_root delta synchronizer sync lockF s).2).filter
      Event.isResolve = [Event.SKIP_resolve_context txTime s.context delta synchronizer lockF] ∧
    (newEvents s
        (SKIP_context_sync_no_lock b txTime old_root delta synchronizer sync lockF s).2).filter
      Event.isIntern =
        [Event.SKIP_intern_shared (b.resolve_context txTime s.context delta synchronizer lockF)] ∧
    (newEvents s
        (SKIP_context_sync_no_lock b txTime old_root delta synchronizer sync lockF s).2).filter
      Event.isCommit = [Event.sk_commit (newRootOf b txTime delta synchronizer lockF s) sync] := by
  obtain ⟨hr, ht, -⟩ := sync_no_lock_ok b txTime old_root delta synchronizer sync lockF s h0 h1 h2
  rw [newEvents_append s _ _ ht, hr]
  refine ⟨rfl, rfl, ?_, ?_, ?_⟩ <;>
    cases hc : b.CTX_TABLE <;>
    simp [syncEvents, ctxTableEvents, hc, mergedOf, Event.isResolve, Event.isIntern,
      Event.isCommit]

/-- C3 (witness): the scenario state with root `11`, synced with delta `20`
against `old_root = 11`; the resolver yields `20` and the new root is `21`. -/
theorem C3_sync_no_lock_result_witness :
    scenario0.context ≠ NULL ∧ scenario0.context ≠ 20 ∧ (11 : Ptr) ≠ 20 ∧
    (SKIP_context_sync_no_lock Build.example64 1 11 20 9 1 0 scenario0).1 = Outcome.ret 21 :=
  ⟨by decide, by decide, by decide,
   (C3_sync_no_lock_result Build.example64 1 11 20 9 1 0 scenario0
      (by decide) (by decide) (by decide)).2.1⟩

/-- C4: in every successful `context_sync_no_lock` call the calls after the
commit are, in this order, `free_root(old_root)`, `free_root(root)` twice for
the pre-call global root, `free_external_pointers`, (the `CTX_TABLE` print when
compiled in) and `incr_ref_count(new_root)`, and no reference-count call
precedes the commit; so the pre-call root is released exactly twice when
`old_root` differs from it and exactly three times when `old_root` is the
pre-call root, and the new root is the only handle whose count is incremented,
exactly once. -/
theorem C4_sync_no_lock_refcounts (b : Build) (txTime : Nat) (old_root delta synchronizer : Ptr)
    (sync : Nat) (lockF : Ptr) (s : Runtime) (h0 : s.context ≠ NULL)
    (h1 : s.context ≠ delta) (h2 : old_root ≠ delta) :
    afterCommit (newEvents s
        (SKIP_context_sync_no_lock b txTime old_root delta synchronizer sync lockF s).2) =
      [Event.sk_free_root old_root, Event.sk_free_root s.context, Event.sk_free_root s.context,
        Event.sk_free_external_pointers] ++ ctxTableEvents b ++
      [Event.sk_incr_ref_count (newRootOf b txTime delta synchronizer lockF s)] ∧
    (newEvents s
        (SKIP_context_sync_no_lock b txTime old_root delta synchronizer sync lockF s).2).filter
      Event.isRefCountOp =
      [Event.sk_free_root old_root, Event.sk_free_root s.context, Event.sk_free_root s.context,
        Event.sk_free_external_pointers,
        Event.sk_incr_ref_count (newRootOf b txTime delta synchronizer lockF s)] ∧
    (newEvents s
        (SKIP_context_sync_no_lock b txTime old_root delta synchronizer sync lockF s).2).count
      (Event.sk_free_root s.context) = (if old_root = s.context then 3 else 2) ∧
    (newEvents s
        (SKIP_context_sync_no_lock b txTime old_root delta synchronizer sync lockF s).2).filter
      Event.isIncrRefCount =
      [Event.sk_incr_ref_count (newRootOf b txTime delta synchronizer lockF s)] := by
  obtain ⟨-, ht, -⟩ := sync_no_lock_ok b txTime old_root delta synchronizer sync lockF s h0 h1 h2
  rw [newEvents_append s _ _ ht]
  refine ⟨?_, ?_, ?_, ?_⟩ <;>
    cases hc : b.CTX_TABLE <;>
    simp [syncEvents, ctxTableEvents, hc, afterCommit, Event.isCommit, Event.isRefCountOp,
      Event.isIncrRefCount, List.count_cons]
  all_goals split_ifs <;> simp_all

/-- C4 (witness): the scenario state with root `11`, synced with delta `20`
against `old_root = 11`: the pre-call root `11` is released three times. -/
theorem C4_sync_no_lock_refcounts_witness :
    scenario0.context ≠ NULL ∧ scenario0.context ≠ 20 ∧ (11 : Ptr) ≠ 20 ∧
    (newEvents scenario0
        (SKIP_context_sync_no_lock Build.example64 1 11 20 9 1 0 scenario0).2).count
      (Event.sk_free_root scenario0.context) = (if (11 : Ptr) = scenario0.context then 3 else 2) :=
  ⟨by decide, by decide, by decide,
   (C4_sync_no_lock_refcounts Build.example64 1 11 20 9 1 0 scenario0
      (by decide) (by decide) (by decide)).2.2.1⟩

/-- C6: in every successful `context_sync` call the calls are: the global lock
is taken, the no-lock sync runs, the global lock is given back, and only then
`call_after_unlock(synchronizer, delta)` is made, exactly once and with the
`synchronizer` and `delta` that were passed in; the lock is not held at that
call nor afterwards, and the value returned is the new root returned by the
no-lock variant. -/
theorem C6_callback_after_unlock (b : Build) (txTime : Nat) (old_root delta synchronizer : Ptr)
    (sync : Nat) (lockF : Ptr) (s : Runtime) (h0 : s.context ≠ NULL)
    (h1 : s.context ≠ delta) (h2 : old_root ≠ delta) :
    newEvents s (SKIP_context_sync b txTime old_root delta synchronizer sync lockF s).2 =
      Event.sk_global_lock ::
        newEvents (sk_global_lock s).2
          (SKIP_context_sync_no_lock b txTime old_root delta synchronizer sync lockF
            (sk_global_lock s).2).2 ++
        [Event.sk_global_unlock, Event.SKIP_call_after_unlock synchronizer delta] ∧
    (newEvents s (SKIP_context_sync b txTime old_root delta synchronizer sync lockF s).2).filter
      Event.isLockOp = [Event.sk_global_lock, Event.sk_global_unlock] ∧
    (newEvents s (SKIP_context_sync b txTime old_root delta synchronizer sync lockF s).2).filter
      Event.isCallback = [Event.SKIP_call_after_unlock synchronizer delta] ∧
    heldAtCallbacks s.sk_is_locked
      (newEvents s (SKIP_context_sync b txTime old_root delta synchronizer sync lockF s).2) =
      [false] ∧
    (SKIP_context_sync b txTime old_root delta synchronizer sync lockF s).2.sk_is_locked = false ∧
    (SKIP_context_sync b txTime old_root delta synchronizer sync lockF s).1 =
      (SKIP_context_sync_no_lock b txTime old_root delta synchronizer sync lockF
        (sk_global_lock s).2).1 ∧
    (SKIP_context_sync b txTime old_root delta synchronizer sync lockF s).1 =
      Outcome.ret (newRootOf b txTime delta synchronizer lockF s) := by
  obtain ⟨hr, ht, -, -, -, hl⟩ :=
    sync_ok b txTime old_root delta synchronizer sync lockF s h0 h1 h2
  obtain ⟨hr1, ht1, -⟩ :=
    sync_no_lock_ok b txTime old_root delta synchronizer sync lockF (sk_global_lock s).2
      h0 h1 h2
  rw [newEvents_append s _ _ ht, newEvents_append _ _ _ ht1, hr, hr1, hl]
  refine ⟨?_, ?_, ?_, ?_, rfl, ?_, rfl⟩
  · rfl
  · cases hct : b.CTX_TABLE <;>
      simp [syncEvents, ctxTableEvents, hct, Event.isLockOp]
  · cases hct : b.CTX_TABLE <;>
      simp [syncEvents, ctxTableEvents, hct, Event.isCallback]
  · cases hct : b.CTX_TABLE <;>
      simp [syncEvents, ctxTableEvents, hct, heldAtCallbacks]
  · rfl

/-- C6 (witness): the scenario state with root `11`, synced with delta `20`
and synchronizer `9`: the notification is the last call, made once. -/
theorem C6_callback_after_unlock_witness :
    scenario0.context ≠ NULL ∧ scenario0.context ≠ 20 ∧ (11 : Ptr) ≠ 20 ∧
    (newEvents scenario0 (SKIP_context_sync Build.example64 1 11 20 9 1 0 scenario0).2).filter
      Event.isCallback = [Event.SKIP_call_after_unlock 9 20] ∧
    heldAtCallbacks scenario0.sk_is_locked
      (newEvents scenario0 (SKIP_context_sync Build.example64 1 11 20 9 1 0 scenario0).2) =
      [false] :=
  ⟨by decide, by decide, by decide,
   (C6_callback_after_unlock Build.example64 1 11 20 9 1 0 scenario0
      (by decide) (by decide) (by decide)).2.2.1,
   (C6_callback_after_unlock Build.example64 1 11 20 9 1 0 scenario0
      (by decide) (by decide) (by decide)).2.2.2.1⟩

/-! ## Lemmas on the object header model -/

theorem tag_eq_two_pow : sk_string_hash_tag = 2 ^ 31 := by
  norm_num [sk_string_hash_tag]

theorem tag_lor (h : Nat) (hh : h < 2 ^ 32) : sk_tag_string_hash h = h ||| sk_string_hash_tag := by
  unfold sk_tag_string_hash
  apply Nat.mod_eq_of_lt
  exact Nat.or_lt_two_pow hh (by norm_num [sk_string_hash_tag])

theorem tag_mod (h : Nat) (hh : h < 2 ^ 32) : sk_tag_string_hash h % 2 ^ 31 = h % 2 ^ 31 := by
  rw [tag_lor h hh, tag_eq_two_pow]
  apply Nat.eq_of_testBit_eq
  intro i
  simp only [Nat.testBit_mod_two_pow, Nat.testBit_or, Nat.testBit_two_pow]
  by_cases hi : i < 31
  · have : ¬ (31 = i) := by omega
    simp [hi, this]
  · simp [hi]

theorem tag_testBit (h : Nat) (hh : h < 2 ^ 32) : (sk_tag_string_hash h).testBit 31 = true := by
  rw [tag_lor h hh, tag_eq_two_pow, Nat.testBit_or, Nat.testBit_two_pow_self, Bool.or_true]

theorem and_tag (x : Nat) :
    x &&& sk_string_hash_tag = if x.testBit 31 then sk_string_hash_tag else 0 := by
  rw [tag_eq_two_pow]
  apply Nat.eq_of_testBit_eq
  intro i
  rw [Nat.testBit_and, Nat.testBit_two_pow]
  by_cases hi : 31 = i
  · subst hi
    cases hx : x.testBit 31
    · simp
    · rw [if_pos rfl, Nat.testBit_two_pow_self]
      simp
  · cases hx : x.testBit 31
    · simp [hi]
    · rw [if_pos rfl, Nat.testBit_two_pow]
      simp [hi]

/-- C7: for every 32-bit value `h`, `tag_string_hash(h)` is a 32-bit value with
bit 31 set, its lower 31 bits are the lower 31 bits of `h`, and it equals
`h | 0x80000000`. -/
theorem C7_tag_string_hash (h : Nat) (hh : h < 2 ^ 32) :
    (sk_tag_string_hash h).testBit 31 = true ∧
    sk_tag_string_hash h % 2 ^ 31 = h % 2 ^ 31 ∧
    sk_tag_string_hash h = h ||| 0x80000000 ∧
    sk_tag_string_hash h < 2 ^ 32 :=
  ⟨tag_testBit h hh, tag_mod h hh, tag_lor h hh, Nat.mod_lt _ (by norm_num)⟩

/-- C7 (witness): the raw hash `5` is tagged to `0x80000005`. -/
theorem C7_tag_string_hash_witness :
    (5 : Nat) < 2 ^ 32 ∧ (sk_tag_string_hash 5).testBit 31 = true ∧
    sk_tag_string_hash 5 % 2 ^ 31 = 5 % 2 ^ 31 ∧ sk_tag_string_hash 5 = 5 ||| 0x80000000 ∧
    sk_tag_string_hash 5 < 2 ^ 32 :=
  ⟨by decide, C7_tag_string_hash 5 (by decide)⟩

/-- C8 (amended): for every 32-bit raw hash value, clearing the tag bit of the
tagged value gives the lower 31 bits of the original,
`tag_string_hash(h) & ~0x80000000 == h & 0x7FFFFFFF`; this is the original
value exactly when bit 31 of the raw hash is clear (`h < 2 ^ 31`). -/
theorem C8_untag_tagged (h : Nat) (hh : h < 2 ^ 32) :
    sk_tag_string_hash h &&& complement32 sk_string_hash_tag = h &&& 0x7FFFFFFF ∧
    sk_tag_string_hash h &&& complement32 sk_string_hash_tag = h % 2 ^ 31 ∧
    (sk_tag_string_hash h &&& complement32 sk_string_hash_tag = h ↔ h < 2 ^ 31) := by
  have hc : complement32 sk_string_hash_tag = 2 ^ 31 - 1 := by
    norm_num [complement32, sk_string_hash_tag]
  have h7 : (0x7FFFFFFF : Nat) = 2 ^ 31 - 1 := by norm_num
  rw [hc, h7, Nat.and_pow_two_sub_one_eq_mod, Nat.and_pow_two_sub_one_eq_mod, tag_mod h hh]
  refine ⟨rfl, rfl, ?_, ?_⟩
  · intro he
    rw [← he]
    exact Nat.mod_lt _ (by norm_num)
  · intro hlt
    exact Nat.mod_eq_of_lt hlt

/-- C8 (witness): the raw hash `5`, whose bit 31 is clear, is given back. -/
theorem C8_untag_tagged_witness :
    (5 : Nat) < 2 ^ 32 ∧ sk_tag_string_hash 5 &&& complement32 sk_string_hash_tag = 5 :=
  ⟨by decide, (C8_untag_tagged 5 (by decide)).2.2.2 (by decide)⟩

/-- C8 (counterexample): the 32-bit raw hash `0x80000000` is not given back;
clearing the tag bit of its tagged value gives `0`. -/
theorem C8_counterexample :
    (0x80000000 : Nat) < 2 ^ 32 ∧
    sk_tag_string_hash 0x80000000 &&& complement32 0x80000000 = 0 ∧
    sk_tag_string_hash 0x80000000 &&& complement32 0x80000000 ≠ 0x80000000 := by
  decide

theorem is_string_run (b : Build) (obj : Ptr) (s : Runtime) :
    SKIP_is_string b obj s =
      if hashField b s obj &&& sk_string_hash_tag = 0 ∧ get_vtable_ptr b obj &&& 0x7 ≠ 0 then
        (Outcome.exit 124,
         { s with trace := s.trace ++
             (diag b "misaligned vtable: %lX\n" [get_vtable_ptr b obj &&& 0xF] ++
               [Event.SKIP_exit 124]) })
      else (Outcome.ret (hashField b s obj &&& sk_string_hash_tag), s) := by
  by_cases hc : hashField b s obj &&& sk_string_hash_tag = 0 ∧ get_vtable_ptr b obj &&& 0x7 ≠ 0
  · rw [if_pos hc]
    have hc' := hc
    unfold hashField at hc'
    cases hb : b.target <;>
      simp [SKIP_is_string, bind, SkM.bind, sk_string_t.hash, hc', fprintf_stderr_SKIP64, hb,
        SKIP_exit, log, diag, SkM.pure, pure]
  · rw [if_neg hc]
    have hc' := hc
    unfold hashField at hc'
    simp only [SKIP_is_string, bind, SkM.bind, sk_string_t.hash, pure, SkM.pure]
    rw [if_neg hc']
    rfl

theorem is_string_mem (b : Build) (obj : Ptr) (s : Runtime) :
    (SKIP_is_string b obj s).2.mem = s.mem := by
  rw [is_string_run]
  split_ifs <;> rfl

theorem is_string_outcome_congr (b : Build) (obj : Ptr) (s1 s2 : Runtime) (h : s1.mem = s2.mem) :
    (SKIP_is_string b obj s1).1 = (SKIP_is_string b obj s2).1 := by
  have hh : hashField b s1 obj = hashField b s2 obj := by
    unfold hashField
    rw [h]
  rw [is_string_run, is_string_run, hh]
  split_ifs <;> rfl

theorem tag_ne_zero : sk_string_hash_tag ≠ 0 := by
  norm_num [sk_string_hash_tag]

/-- C9: for every object whose header hash field holds `tag_string_hash(h)`
for a 32-bit `h`, `is_string(obj)` returns a non-zero value, whatever the
alignment of the object's address, and for every object whose hash field has
bit 31 clear and which passes the alignment check it returns 0, in both cases
without any other effect; `is_string` never modifies memory, and a second call
on the same object gives the same result as the first. -/
theorem C9_is_string_classifies (b : Build) (obj : Ptr) (s : Runtime) :
    (∀ h, h < 2 ^ 32 → hashField b s obj = sk_tag_string_hash h →
      SKIP_is_string b obj s = (Outcome.ret sk_string_hash_tag, s) ∧ sk_string_hash_tag ≠ 0) ∧
    ((hashField b s obj).testBit 31 = false → get_vtable_ptr b obj &&& 0x7 = 0 →
      SKIP_is_string b obj s = (Outcome.ret 0, s)) ∧
    (SKIP_is_string b obj s).2.mem = s.mem ∧
    (SKIP_is_string b obj (SKIP_is_string b obj s).2).1 = (SKIP_is_string b obj s).1 := by
  refine ⟨?_, ?_, is_string_mem b obj s,
    is_string_outcome_congr b obj _ s (is_string_mem b obj s)⟩
  · intro h hh hf
    have hres : hashField b s obj &&& sk_string_hash_tag = sk_string_hash_tag := by
      rw [and_tag, hf, tag_testBit h hh, if_pos rfl]
    rw [is_string_run, hres, if_neg (fun hc => tag_ne_zero hc.1)]
    exact ⟨rfl, tag_ne_zero⟩
  · intro hclear halign
    have hres : hashField b s obj &&& sk_string_hash_tag = 0 := by
      rw [and_tag, hclear]
      rfl
    rw [is_string_run, hres, if_neg (fun hc => hc.2 halign)]

/-- C9 (witness): a string at the misaligned-for-a-pointer address `0x100C`
whose hash word is `tag_string_hash(5)`, and a plain object at `0x1008` whose
header holds `0x2001`. -/
theorem C9_is_string_classifies_witness :
    ((5 : Nat) < 2 ^ 32 ∧
      hashField Build.example64 stringHeaderState 0x100C = sk_tag_string_hash 5 ∧
      SKIP_is_string Build.example64 0x100C stringHeaderState =
        (Outcome.ret sk_string_hash_tag, stringHeaderState)) ∧
    ((hashField Build.example64 oddHeaderState 0x1008).testBit 31 = false ∧
      get_vtable_ptr Build.example64 0x1008 &&& 0x7 = 0 ∧
      SKIP_is_string Build.example64 0x1008 oddHeaderState = (Outcome.ret 0, oddHeaderState)) :=
  ⟨⟨by decide, by decide,
    ((C9_is_string_classifies Build.example64 0x100C stringHeaderState).1 5
      (by decide) (by decide)).1⟩,
   by decide, by decide,
   (C9_is_string_classifies Build.example64 0x1008 oddHeaderState).2.1 (by decide) (by decide)⟩

/-- C10 (amended): for every object whose header hash field has bit 31 clear,
`is_string(obj)` terminates the process with exit code 124 if and only if the
address of the header slot before the object (the object's address minus one
pointer) has a non-zero bit among its low 3 bits, whatever value that slot
holds; otherwise it returns 0 without exiting. -/
theorem C10_is_string_exit (b : Build) (obj : Ptr) (s : Runtime)
    (hclear : (hashField b s obj).testBit 31 = false) :
    ((SKIP_is_string b obj s).1 = Outcome.exit 124 ↔ get_vtable_ptr b obj &&& 0x7 ≠ 0) ∧
    (get_vtable_ptr b obj &&& 0x7 = 0 → SKIP_is_string b obj s = (Outcome.ret 0, s)) := by
  have hres : hashField b s obj &&& sk_string_hash_tag = 0 := by
    rw [and_tag, hclear]
    rfl
  rw [is_string_run, hres]
  by_cases ha : get_vtable_ptr b obj &&& 0x7 = 0
  · rw [if_neg (fun hc => hc.2 ha)]
    refine ⟨⟨fun h => ?_, fun h => absurd ha h⟩, fun _ => rfl⟩
    cases h
  · rw [if_pos ⟨rfl, ha⟩]
    exact ⟨⟨fun _ => ha, fun _ => rfl⟩, fun h => absurd h ha⟩

/-- C10 (witness): a plain object at `0x1008` returns 0, one at `0x100C` exits with 124. -/
theorem C10_is_string_exit_witness :
    (hashField Build.example64 oddHeaderState 0x1008).testBit 31 = false ∧
    (hashField Build.example64 Runtime.empty 0x100C).testBit 31 = false ∧
    SKIP_is_string Build.example64 0x1008 oddHeaderState = (Outcome.ret 0, oddHeaderState) ∧
    (SKIP_is_string Build.example64 0x100C Runtime.empty).1 = Outcome.exit 124 :=
  ⟨by decide, by decide,
   (C10_is_string_exit Build.example64 0x1008 oddHeaderState (by decide)).2 (by decide),
   (C10_is_string_exit Build.example64 0x100C Runtime.empty (by decide)).1.2 (by decide)⟩

/-- C10 (counterexample): the object at the 8-byte-aligned address `0x1008`
has bit 31 of its hash field clear and its header slot holds `0x2001`, whose
low 3 bits are not zero, yet `is_string` returns 0 without exiting; the object
at `0x100C` has a header slot holding `0`, whose low 3 bits are zero, yet
`is_string` exits with code 124. -/
theorem C10_counterexample :
    ((hashField Build.example64 oddHeaderState 0x1008).testBit 31 = false ∧
      vtableSlotValue Build.example64 oddHeaderState 0x1008 = 0x2001 ∧
      vtableSlotValue Build.example64 oddHeaderState 0x1008 &&& 0x7 ≠ 0 ∧
      (SKIP_is_string Build.example64 0x1008 oddHeaderState).1 = Outcome.ret 0) ∧
    ((hashField Build.example64 Runtime.empty 0x100C).testBit 31 = false ∧
      vtableSlotValue Build.example64 Runtime.empty 0x100C &&& 0x7 = 0 ∧
      (SKIP_is_string Build.example64 0x100C Runtime.empty).1 = Outcome.exit 124) := by
  decide

theorem get_gc_type_run (b : Build) (obj : Ptr) (s : Runtime) :
    get_gc_type b obj s =
      if get_vtable_ptr b obj &&& 0x7 ≠ 0 then
        (Outcome.exit 125,
         { s with trace := s.trace ++
             (diag b "misaligned vtable: %lX\n" [get_vtable_ptr b obj &&& 0xF] ++
               [Event.SKIP_exit 125]) })
      else (Outcome.ret (vtableSlot b s (vtableSlotValue b s obj) 1), s) := by
  by_cases hc : get_vtable_ptr b obj &&& 0x7 ≠ 0
  · rw [if_pos hc]
    cases hb : b.target <;>
      simp [get_gc_type, bind, SkM.bind, hc, fprintf_stderr_SKIP64, hb, SKIP_exit, log, diag,
        SkM.pure, pure]
  · rw [if_neg hc]
    simp only [get_gc_type, bind, SkM.bind, pure, SkM.pure, load_ptr]
    rw [if_neg hc]
    rfl

/-- C11: for every object that passes the alignment check, `get_gc_type`
returns exactly the content of slot index 1 of the vtable whose pointer is
stored in the header slot immediately preceding the object, and changes
nothing; when the alignment check fails it terminates the process with exit
code 125 and returns nothing; in both cases memory is left as it was. -/
theorem C11_get_gc_type (b : Build) (obj : Ptr) (s : Runtime) :
    (get_vtable_ptr b obj &&& 0x7 = 0 →
      get_gc_type b obj s = (Outcome.ret (vtableSlot b s (vtableSlotValue b s obj) 1), s)) ∧
    (get_vtable_ptr b obj &&& 0x7 ≠ 0 →
      (get_gc_type b obj s).1 = Outcome.exit 125 ∧
      newEvents s (get_gc_type b obj s).2 =
        diag b "misaligned vtable: %lX\n" [get_vtable_ptr b obj &&& 0xF] ++
          [Event.SKIP_exit 125]) ∧
    (get_gc_type b obj s).2.mem = s.mem := by
  rw [get_gc_type_run]
  by_cases hc : get_vtable_ptr b obj &&& 0x7 ≠ 0
  · rw [if_pos hc]
    refine ⟨fun h => absurd h hc, fun _ => ⟨rfl, ?_⟩, rfl⟩
    simp [newEvents]
  · rw [if_neg hc]
    exact ⟨fun _ => rfl, fun h => absurd h hc, rfl⟩

/-- C11 (witness): the object at `0x1008` whose header slot points to the
vtable at `0x2000`: the result is the content `0x4000` of slot 1, which is
neither the content `0x3000` of slot 0 nor the vtable pointer `0x2000`; the
object at `0x100C` fails the alignment check and the call exits with 125. -/
theorem C11_get_gc_type_witness :
    (get_vtable_ptr Build.example64 0x1008 &&& 0x7 = 0 ∧
      get_gc_type Build.example64 0x1008 vtableState =
        (Outcome.ret (vtableSlot Build.example64 vtableState
          (vtableSlotValue Build.example64 vtableState 0x1008) 1), vtableState) ∧
      vtableSlotValue Build.example64 vtableState 0x1008 = 0x2000 ∧
      vtableSlot Build.example64 vtableState 0x2000 0 = 0x3000 ∧
      vtableSlot Build.example64 vtableState 0x2000 1 = 0x4000) ∧
    (get_vtable_ptr Build.example64 0x100C &&& 0x7 ≠ 0 ∧
      (get_gc_type Build.example64 0x100C vtableState).1 = Outcome.exit 125) :=
  ⟨⟨by decide, (C11_get_gc_type Build.example64 0x1008 vtableState).1 (by decide),
    by decide, by decide, by decide⟩,
   by decide, ((C11_get_gc_type Build.example64 0x100C vtableState).2.1 (by decide)).1⟩

/-! ## Lemmas on the thread-local cells -/

theorem runLocalCalls_run (calls : List LocalCall) (s : Runtime) :
    runLocalCalls calls s =
      (Outcome.ret (),
       { s with lcontext :=
           match calls.getLast? with
           | some (LocalCall.set_local_context context) => context
           | some LocalCall.remove_local_context => NULL
           | none => s.lcontext }) := by
  induction calls generalizing s with
  | nil => rfl
  | cons c cs ih =>
    cases cs with
    | nil =>
      cases c <;> rfl
    | cons d ds =>
      have hstep : runLocalCalls (c :: d :: ds) s = runLocalCalls (d :: ds) (c.run s).2 := by
        cases c <;> rfl
      rw [hstep, ih]
      have hne : (d :: ds).getLast? ≠ none := by simp
      cases hg : (d :: ds).getLast? with
      | none => exact absurd hg hne
      | some e =>
        cases c <;> cases e <;>
          simp [List.getLast?_cons_cons, hg, LocalCall.run, SKIP_set_local_context,
            SKIP_remove_local_context, write_lcontext]

/-- C12: after every sequence of `set_local_context` / `clear_local_context`
calls made from the initial state of the cell, `get_local_context` returns
(it never fails, in any state) the argument of the most recent
`set_local_context`, or null if there was none or if `clear_local_context` was
called after it, and leaves the state alone; `has_local_context` returns 1
exactly when `get_local_context` returns a non-null value, and 0 otherwise. -/
theorem C12_local_context (calls : List LocalCall) (s : Runtime) (h : s.lcontext = NULL) :
    (runLocalCalls calls s).1 = Outcome.ret () ∧
    SKIP_get_local_context (runLocalCalls calls s).2 =
      (Outcome.ret (expectedLocalContext calls), (runLocalCalls calls s).2) ∧
    (SKIP_has_local_context (runLocalCalls calls s).2).1 =
      Outcome.ret (if expectedLocalContext calls ≠ NULL then 1 else 0) ∧
    (∀ s1 : Runtime, (SKIP_get_local_context s1).1 = Outcome.ret s1.lcontext ∧
      ((SKIP_has_local_context s1).1 = Outcome.ret 1 ↔
        (SKIP_get_local_context s1).1 ≠ Outcome.ret NULL) ∧
      ((SKIP_has_local_context s1).1 = Outcome.ret 0 ↔
        (SKIP_get_local_context s1).1 = Outcome.ret NULL)) := by
  have hl : (runLocalCalls calls s).2.lcontext = expectedLocalContext calls := by
    rw [runLocalCalls_run]
    unfold expectedLocalContext
    cases calls.getLast? with
    | none => exact h
    | some e => cases e <;> rfl
  refine ⟨by rw [runLocalCalls_run], ?_, ?_, ?_⟩
  · show (Outcome.ret (runLocalCalls calls s).2.lcontext, (runLocalCalls calls s).2) = _
    rw [hl]
  · show Outcome.ret (if (runLocalCalls calls s).2.lcontext ≠ NULL then (1 : Int) else 0) = _
    rw [hl]
  · intro s1
    refine ⟨rfl, ?_, ?_⟩
    · show Outcome.ret (if s1.lcontext ≠ NULL then (1 : Int) else 0) = Outcome.ret 1 ↔
        Outcome.ret s1.lcontext ≠ Outcome.ret NULL
      by_cases hn : s1.lcontext = NULL <;> simp [hn]
    · show Outcome.ret (if s1.lcontext ≠ NULL then (1 : Int) else 0) = Outcome.ret 0 ↔
        Outcome.ret s1.lcontext = Outcome.ret NULL
      by_cases hn : s1.lcontext = NULL <;> simp [hn]

/-- C12 (witness): from the initial state, set 3, clear, set 4 gives 4 and 1;
set 3, clear gives null and 0; set null gives null and 0. -/
theorem C12_local_context_witness :
    Runtime.empty.lcontext = NULL ∧
    (SKIP_get_local_context (runLocalCalls [LocalCall.set_local_context 3,
        LocalCall.remove_local_context, LocalCall.set_local_context 4] Runtime.empty).2).1 =
      Outcome.ret 4 ∧
    (SKIP_has_local_context (runLocalCalls [LocalCall.set_local_context 3,
        LocalCall.remove_local_context, LocalCall.set_local_context 4] Runtime.empty).2).1 =
      Outcome.ret 1 ∧
    (SKIP_has_local_context (runLocalCalls [LocalCall.set_local_context 3,
        LocalCall.remove_local_context] Runtime.empty).2).1 = Outcome.ret 0 ∧
    (SKIP_has_local_context (runLocalCalls [LocalCall.set_local_context NULL]
        Runtime.empty).2).1 = Outcome.ret 0 :=
  ⟨rfl,
   congrArg Prod.fst (C12_local_context [LocalCall.set_local_context 3,
      LocalCall.remove_local_context, LocalCall.set_local_context 4] Runtime.empty rfl).2.1,
   (C12_local_context [LocalCall.set_local_context 3,
      LocalCall.remove_local_context, LocalCall.set_local_context 4] Runtime.empty rfl).2.2.1,
   (C12_local_context [LocalCall.set_local_context 3,
      LocalCall.remove_local_context] Runtime.empty rfl).2.2.1,
   (C12_local_context [LocalCall.set_local_context NULL] Runtime.empty rfl).2.2.1⟩

theorem unsafe_get_run (b : Build) (s : Runtime) :
    SKIP_unsafe_get_local_context b s =
      if s.local_ctx = NULL then
        (Outcome.throw ERROR_LOCAL_CONTEXT_NULL,
         { s with trace := s.trace ++ (diag b "Error: local context is not set" [] ++
             [Event.SKIP_throw_cruntime ERROR_LOCAL_CONTEXT_NULL]) })
      else (Outcome.ret s.local_ctx, s) := by
  by_cases hc : s.local_ctx = NULL
  · rw [if_pos hc]
    cases hb : b.target <;>
      simp [ SKIP_unsafe_get_local_context, bind, SkM.bind, read_local_ctx, hc,
        fprintf_stderr_SKIP64, hb, SKIP_throw_cruntime, log, diag, SkM.pure]
  · rw [if_neg hc]
    simp [ SKIP_unsafe_get_local_context, bind, SkM.bind, read_local_ctx, hc, SkM.pure, pure]

/-- C13: `unsafe_get_local_context` fails with `LocalContextNull` if and only
if the unsafe cell is unset, which is the case in the initial state, after
`unsafe_remove_local_context` with any argument, and after
`unsafe_set_local_context(null)`; in every other state it returns the content
of the cell, which after `unsafe_set_local_context(obj)` is `obj`, without any
effect; it never changes the cell. -/
theorem C13_unchecked_get (b : Build) (s : Runtime) (obj : Ptr) :
    ((SKIP_unsafe_get_local_context b s).1 = Outcome.throw ERROR_LOCAL_CONTEXT_NULL ↔
      s.local_ctx = NULL) ∧
    (s.local_ctx ≠ NULL → SKIP_unsafe_get_local_context b s = (Outcome.ret s.local_ctx, s)) ∧
    (SKIP_unsafe_get_local_context b s).2.local_ctx = s.local_ctx ∧
    Runtime.empty.local_ctx = NULL ∧
    (SKIP_unsafe_remove_local_context obj s).2.local_ctx = NULL ∧
    (SKIP_unsafe_set_local_context NULL s).2.local_ctx = NULL ∧
    (SKIP_unsafe_set_local_context obj s).2.local_ctx = obj ∧
    (obj ≠ NULL →
      (SKIP_unsafe_get_local_context b (SKIP_unsafe_set_local_context obj s).2).1 =
        Outcome.ret obj) ∧
    (SKIP_unsafe_get_local_context b (SKIP_unsafe_remove_local_context obj s).2).1 =
      Outcome.throw ERROR_LOCAL_CONTEXT_NULL ∧
    (SKIP_unsafe_get_local_context b (SKIP_unsafe_set_local_context NULL s).2).1 =
      Outcome.throw ERROR_LOCAL_CONTEXT_NULL := by
  refine ⟨?_, ?_, ?_, rfl, rfl, rfl, rfl, ?_, ?_, ?_⟩
  · rw [unsafe_get_run]
    by_cases hc : s.local_ctx = NULL
    · rw [if_pos hc]
      exact ⟨fun _ => hc, fun _ => rfl⟩
    · rw [if_neg hc]
      refine ⟨fun h => ?_, fun h => absurd h hc⟩
      cases h
  · intro hc
    rw [unsafe_get_run, if_neg hc]
  · rw [unsafe_get_run]
    split_ifs <;> rfl
  · intro hobj
    rw [unsafe_get_run]
    have : (SKIP_unsafe_set_local_context obj s).2.local_ctx = obj := rfl
    rw [if_neg (by rw [this]; exact hobj)]
    rfl
  · rw [unsafe_get_run]
    have : (SKIP_unsafe_remove_local_context obj s).2.local_ctx = NULL := rfl
    rw [if_pos this]
  · rw [unsafe_get_run]
    have : (SKIP_unsafe_set_local_context NULL s).2.local_ctx = NULL := rfl
    rw [if_pos this]

/-- C13 (witness): after `unsafe_set_local_context(7)` in the initial state the
getter returns 7. -/
theorem C13_unchecked_get_witness :
    (7 : Ptr) ≠ NULL ∧
    (SKIP_unsafe_get_local_context Build.example64
      (SKIP_unsafe_set_local_context 7 Runtime.empty).2).1 = Outcome.ret 7 ∧
    (SKIP_unsafe_get_local_context Build.example64 Runtime.empty).1 =
      Outcome.throw ERROR_LOCAL_CONTEXT_NULL :=
  ⟨by decide,
   (C13_unchecked_get Build.example64 Runtime.empty 7).2.2.2.2.2.2.2.1 (by decide),
   (C13_unchecked_get Build.example64 Runtime.empty 7).1.2 rfl⟩

/-- C14: the checked and the unsafe local-context cells are independent:
`set_local_context` and `clear_local_context` change neither the unsafe cell
nor what `unsafe_get_local_context` returns or whether it fails;
`unsafe_set_local_context` and `unsafe_remove_local_context` change neither
the checked cell nor what `get_local_context` and `has_local_context` return;
and no operation on either cell, the getters included, changes the global
root. -/
theorem C14_cells_independent (b : Build) (s : Runtime) (context obj : Ptr) :
    ((SKIP_set_local_context context s).2.local_ctx = s.local_ctx ∧
      (SKIP_remove_local_context s).2.local_ctx = s.local_ctx ∧
      (SKIP_unsafe_get_local_context b (SKIP_set_local_context context s).2).1 =
        (SKIP_unsafe_get_local_context b s).1 ∧
      (SKIP_unsafe_get_local_context b (SKIP_remove_local_context s).2).1 =
        (SKIP_unsafe_get_local_context b s).1) ∧
    ((SKIP_unsafe_set_local_context obj s).2.lcontext = s.lcontext ∧
      (SKIP_unsafe_remove_local_context obj s).2.lcontext = s.lcontext ∧
      (SKIP_get_local_context (SKIP_unsafe_set_local_context obj s).2).1 =
        (SKIP_get_local_context s).1 ∧
      (SKIP_get_local_context (SKIP_unsafe_remove_local_context obj s).2).1 =
        (SKIP_get_local_context s).1 ∧
      (SKIP_has_local_context (SKIP_unsafe_set_local_context obj s).2).1 =
        (SKIP_has_local_context s).1 ∧
      (SKIP_has_local_context (SKIP_unsafe_remove_local_context obj s).2).1 =
        (SKIP_has_local_context s).1) ∧
    ((SKIP_set_local_context context s).2.context = s.context ∧
      (SKIP_remove_local_context s).2.context = s.context ∧
      (SKIP_get_local_context s).2.context = s.context ∧
      (SKIP_has_local_context s).2.context = s.context ∧
      (SKIP_unsafe_set_local_context obj s).2.context = s.context ∧
      (SKIP_unsafe_remove_local_context obj s).2.context = s.context ∧
      (SKIP_unsafe_get_local_context b s).2.context = s.context) := by
  refine ⟨⟨rfl, rfl, ?_, ?_⟩, ⟨rfl, rfl, rfl, rfl, rfl, rfl⟩, rfl, rfl, rfl, rfl, rfl, rfl, ?_⟩
  · rw [unsafe_get_run, unsafe_get_run]
    have : (SKIP_set_local_context context s).2.local_ctx = s.local_ctx := rfl
    rw [this]
    split_ifs <;> rfl
  · rw [unsafe_get_run, unsafe_get_run]
    have : (SKIP_remove_local_context s).2.local_ctx = s.local_ctx := rfl
    rw [this]
    split_ifs <;> rfl
  · rw [unsafe_get_run]
    split_ifs <;> rfl

/-! ## Lemmas on initialization and on failing synchronization calls -/

theorem context_init_run (obj : Ptr) (s : Runtime) :
    SKIP_context_init obj s =
      (Outcome.ret (),
       { s with context := internOf obj s, sk_is_locked := false,
                shared := internOf obj s :: s.shared,
                trace := s.trace ++ [Event.sk_global_lock, Event.SKIP_intern_shared obj,
                  Event.sk_context_set_unsafe (internOf obj s), Event.sk_global_unlock] }) := by
  simp [SKIP_context_init, bind, SkM.bind, sk_global_lock, SKIP_intern_shared,
    sk_context_set_unsafe, sk_global_unlock, internOf]

theorem sync_not_uninit (b : Build) (txTime : Nat) (old_root delta synchronizer : Ptr)
    (sync : Nat) (lockF : Ptr) (s : Runtime) (h0 : s.context ≠ NULL) :
    (SKIP_context_sync b txTime old_root delta synchronizer sync lockF s).1 ≠
      Outcome.throw ERROR_CONTEXT_NOT_INITIALIZED ∧
    (SKIP_context_sync_no_lock b txTime old_root delta synchronizer sync lockF s).1 ≠
      Outcome.throw ERROR_CONTEXT_NOT_INITIALIZED := by
  by_cases h : s.context = delta ∨ old_root = delta
  · rw [sync_same b txTime old_root delta synchronizer sync lockF s h0 h,
      sync_no_lock_same b txTime old_root delta synchronizer sync lockF s h0 h]
    exact ⟨fun hc => Outcome.noConfusion hc (fun hcode => CRuntimeError.noConfusion hcode),
      fun hc => Outcome.noConfusion hc (fun hcode => CRuntimeError.noConfusion hcode)⟩
  · have h1 : s.context ≠ delta := fun hc => h (Or.inl hc)
    have h2 : old_root ≠ delta := fun hc => h (Or.inr hc)
    obtain ⟨hr, -⟩ := sync_ok b txTime old_root delta synchronizer sync lockF s h0 h1 h2
    obtain ⟨hr1, -⟩ := sync_no_lock_ok b txTime old_root delta synchronizer sync lockF s h0 h1 h2
    rw [hr, hr1]
    exact ⟨fun hc => Outcome.noConfusion hc, fun hc => Outcome.noConfusion hc⟩

/-- C15: for every `obj` and every prior state, `context_init(obj)` takes the
global lock, installs the handle `intern_shared(obj)` returns as the global
root, whatever the previous root was, and gives the lock back before
returning; its only calls are the lock, `intern_shared(obj)`, the raw write of
the global cell and the unlock, so there is no resolver call, no `free_root`
and no `incr_ref_count`, and no reference count changes; a `context_sync` (or
`context_sync_no_lock`) made afterwards does not fail with
`ContextNotInitialized`, provided the handle `intern_shared` returned is not
null. -/
theorem C15_context_init (b : Build) (obj : Ptr) (s : Runtime) (txTime : Nat)
    (old_root delta synchronizer : Ptr) (sync : Nat) (lockF : Ptr) :
    (SKIP_context_init obj s).1 = Outcome.ret () ∧
    Outcome.ret (SKIP_context_init obj s).2.context = (SKIP_intern_shared obj s).1 ∧
    newEvents s (SKIP_context_init obj s).2 =
      [Event.sk_global_lock, Event.SKIP_intern_shared obj,
        Event.sk_context_set_unsafe (SKIP_context_init obj s).2.context,
        Event.sk_global_unlock] ∧
    (SKIP_context_init obj s).2.sk_is_locked = false ∧
    (SKIP_context_init obj s).2.refcount = s.refcount ∧
    (∀ e ∈ newEvents s (SKIP_context_init obj s).2,
      e.isResolve = false ∧ e.isFreeRoot = false ∧ e.isIncrRefCount = false ∧
        e.isCommit = false) ∧
    ((SKIP_context_init obj s).2.context ≠ NULL →
      (SKIP_context_sync b txTime old_root delta synchronizer sync lockF
          (SKIP_context_init obj s).2).1 ≠ Outcome.throw ERROR_CONTEXT_NOT_INITIALIZED ∧
      (SKIP_context_sync_no_lock b txTime old_root delta synchronizer sync lockF
          (SKIP_context_init obj s).2).1 ≠ Outcome.throw ERROR_CONTEXT_NOT_INITIALIZED) := by
  refine ⟨?_, ?_, ?_, ?_, ?_, ?_, fun h0 =>
    sync_not_uninit b txTime old_root delta synchronizer sync lockF _ h0⟩
  · rw [context_init_run]
  · rw [context_init_run]
    rfl
  · rw [context_init_run]
    simp [newEvents]
  · rw [context_init_run]
  · rw [context_init_run]
  · rw [context_init_run]
    intro e he
    simp only [newEvents, List.drop_left, List.mem_cons, List.mem_singleton, List.not_mem_nil,
      or_false] at he
    rcases he with rfl | rfl | rfl | rfl <;> exact ⟨rfl, rfl, rfl, rfl⟩

/-- C15 (witness): `context_init(10)` in a state whose root is already `21`
installs the new handle `22`, and a sync made afterwards succeeds. -/
theorem C15_context_init_witness :
    (SKIP_context_init 10 scenario1).2.context ≠ NULL ∧
    scenario1.context = 21 ∧ (SKIP_context_init 10 scenario1).2.context = 22 ∧
    (SKIP_context_sync Build.example64 3 22 30 9 1 0 (SKIP_context_init 10 scenario1).2).1 ≠
      Outcome.throw ERROR_CONTEXT_NOT_INITIALIZED :=
  ⟨by decide, by decide, by decide,
   ((C15_context_init Build.example64 10 scenario1 3 22 30 9 1 0).2.2.2.2.2.2 (by decide)).1⟩

/-- C17: every `context_sync` call that fails does so with
`ContextNotInitialized` or `SyncSameContext`, which happens exactly when the
global root is null or `delta` equals the root or `old_root`; such a call ends
with the global lock still held: its only lock operation is the
`sk_global_lock` at its start, it makes no `sk_global_unlock` call, and
`call_after_unlock` is not invoked. -/
theorem C17_failed_sync_keeps_lock (b : Build) (txTime : Nat) (old_root delta synchronizer : Ptr)
    (sync : Nat) (lockF : Ptr) (s : Runtime) (e : CRuntimeError)
    (h : (SKIP_context_sync b txTime old_root delta synchronizer sync lockF s).1 =
      Outcome.throw e) :
    (e = ERROR_CONTEXT_NOT_INITIALIZED ∨ e = ERROR_SYNC_SAME_CONTEXT) ∧
    (s.context = NULL ∨ s.context = delta ∨ old_root = delta) ∧
    (SKIP_context_sync b txTime old_root delta synchronizer sync lockF s).2.sk_is_locked = true ∧
    (newEvents s (SKIP_context_sync b txTime old_root delta synchronizer sync lockF s).2).filter
      Event.isLockOp = [Event.sk_global_lock] ∧
    (newEvents s (SKIP_context_sync b txTime old_root delta synchronizer sync lockF s).2).filter
      Event.isCallback = [] ∧
    heldAtCallbacks s.sk_is_locked
      (newEvents s (SKIP_context_sync b txTime old_root delta synchronizer sync lockF s).2) =
      [] := by
  by_cases h0 : s.context = NULL
  · rw [sync_uninit b txTime old_root delta synchronizer sync lockF s h0] at h ⊢
    have he : ERROR_CONTEXT_NOT_INITIALIZED = e := by
      injection h
    refine ⟨Or.inl he.symm, Or.inl h0, rfl, ?_, ?_, ?_⟩ <;>
      cases hb : b.target <;>
      simp [newEvents, diag, hb, Event.isLockOp, Event.isCallback, heldAtCallbacks]
  · by_cases h' : s.context = delta ∨ old_root = delta
    · rw [sync_same b txTime old_root delta synchronizer sync lockF s h0 h'] at h ⊢
      have he : ERROR_SYNC_SAME_CONTEXT = e := by
        injection h
      refine ⟨Or.inr he.symm, Or.inr h', rfl, ?_, ?_, ?_⟩ <;>
        cases hb : b.target <;>
        simp [newEvents, diag, hb, Event.isLockOp, Event.isCallback, heldAtCallbacks]
    · have h1 : s.context ≠ delta := fun hc => h' (Or.inl hc)
      have h2 : old_root ≠ delta := fun hc => h' (Or.inr hc)
      obtain ⟨hr, -⟩ := sync_ok b txTime old_root delta synchronizer sync lockF s h0 h1 h2
      rw [hr] at h
      cases h

/-- C17 (witness): the call before initialization and the call whose delta is
the root both fail and leave the lock held. -/
theorem C17_failed_sync_keeps_lock_witness :
    ((SKIP_context_sync Build.example64 1 5 6 9 1 0 Runtime.empty).1 =
        Outcome.throw ERROR_CONTEXT_NOT_INITIALIZED ∧
      (SKIP_context_sync Build.example64 1 5 6 9 1 0 Runtime.empty).2.sk_is_locked = true) ∧
    ((SKIP_context_sync Build.example64 1 5 11 9 1 0 scenario0).1 =
        Outcome.throw ERROR_SYNC_SAME_CONTEXT ∧
      (SKIP_context_sync Build.example64 1 5 11 9 1 0 scenario0).2.sk_is_locked = true ∧
      (newEvents scenario0
          (SKIP_context_sync Build.example64 1 5 11 9 1 0 scenario0).2).filter
        Event.isCallback = []) :=
  ⟨⟨by decide,
    (C17_failed_sync_keeps_lock Build.example64 1 5 6 9 1 0 Runtime.empty
      ERROR_CONTEXT_NOT_INITIALIZED (by decide)).2.2.1⟩,
   by decide,
   (C17_failed_sync_keeps_lock Build.example64 1 5 11 9 1 0 scenario0
      ERROR_SYNC_SAME_CONTEXT (by decide)).2.2.1,
   (C17_failed_sync_keeps_lock Build.example64 1 5 11 9 1 0 scenario0
      ERROR_SYNC_SAME_CONTEXT (by decide)).2.2.2.2.1⟩

/-! ## Lemmas on the alignment test -/

theorem and_seven (x : Nat) : x &&& 0x7 = x % 8 := by
  have h := Nat.and_pow_two_sub_one_eq_mod x 3
  norm_num at h
  exact h

theorem slot_aligned_SKIP64 (b : Build) (obj : Nat) (hb : b.target = Target.SKIP64)
    (ho : obj % 8 = 0) : get_vtable_ptr b obj &&& 0x7 = 0 := by
  rw [and_seven]
  unfold get_vtable_ptr ptr_sub
  rw [hb]
  show (obj % 2 ^ 64 + 2 ^ 64 - 8 % 2 ^ 64) % 2 ^ 64 % 8 = 0
  have hm : obj % 2 ^ 64 % 8 = 0 := by
    rw [Nat.mod_mod_of_dvd obj (by norm_num : 8 ∣ 2 ^ 64)]
    exact ho
  have hlt : obj % 2 ^ 64 < 2 ^ 64 := Nat.mod_lt _ (by norm_num)
  generalize obj % 2 ^ 64 = m at hm hlt
  omega

theorem get_gc_type_exit_iff (b : Build) (obj : Ptr) (s : Runtime) :
    (get_gc_type b obj s).1 = Outcome.exit 125 ↔ get_vtable_ptr b obj &&& 0x7 ≠ 0 := by
  rw [get_gc_type_run]
  by_cases hc : get_vtable_ptr b obj &&& 0x7 ≠ 0
  · rw [if_pos hc]
    exact ⟨fun _ => hc, fun _ => rfl⟩
  · rw [if_neg hc]
    exact ⟨fun h => Outcome.noConfusion h, fun h => absurd h hc⟩

theorem is_string_exit_iff (b : Build) (obj : Ptr) (s : Runtime)
    (hclear : (hashField b s obj).testBit 31 = false) :
    (SKIP_is_string b obj s).1 = Outcome.exit 124 ↔ get_vtable_ptr b obj &&& 0x7 ≠ 0 := by
  have hres : hashField b s obj &&& sk_string_hash_tag = 0 := by
    rw [and_tag, hclear]
    rfl
  rw [is_string_run, hres]
  by_cases hc : get_vtable_ptr b obj &&& 0x7 ≠ 0
  · rw [if_pos ⟨rfl, hc⟩]
    exact ⟨fun _ => hc, fun _ => rfl⟩
  · rw [if_neg (fun h => hc h.2)]
    exact ⟨fun h => Outcome.noConfusion h, fun h => absurd h hc⟩

/-- C18 (amended): the misalignment decision in `get_gc_type` (exit 125) and
in `is_string` (exit 124, when the tag bit is clear) is a function of the
object's address only: the value tested is the address of the header slot (the
object's address minus one pointer), so two objects at the same address with
different header contents get the same alignment verdict, and on the 64-bit
target, where a pointer has 8 bytes, neither function ever exits for an object
at an 8-byte-aligned address, whatever the header holds. -/
theorem C18_alignment_by_address (b : Build) (obj : Ptr) (s1 s2 : Runtime) :
    get_vtable_ptr b obj = ptr_sub b.target obj (sizeof_ptr b.target) ∧
    ((get_gc_type b obj s1).1 = Outcome.exit 125 ↔ get_vtable_ptr b obj &&& 0x7 ≠ 0) ∧
    ((get_gc_type b obj s1).1 = Outcome.exit 125 ↔
      (get_gc_type b obj s2).1 = Outcome.exit 125) ∧
    ((hashField b s1 obj).testBit 31 = false → (hashField b s2 obj).testBit 31 = false →
      ((SKIP_is_string b obj s1).1 = Outcome.exit 124 ↔ get_vtable_ptr b obj &&& 0x7 ≠ 0) ∧
      ((SKIP_is_string b obj s1).1 = Outcome.exit 124 ↔
        (SKIP_is_string b obj s2).1 = Outcome.exit 124)) ∧
    (b.target = Target.SKIP64 → obj % 8 = 0 →
      (∀ c, (get_gc_type b obj s1).1 ≠ Outcome.exit c) ∧
      (∀ c, (SKIP_is_string b obj s1).1 ≠ Outcome.exit c)) := by
  refine ⟨?_, get_gc_type_exit_iff b obj s1, ?_, ?_, ?_⟩
  · unfold get_vtable_ptr
    rw [Nat.one_mul]
  · rw [get_gc_type_exit_iff, get_gc_type_exit_iff]
  · intro h1 h2
    refine ⟨is_string_exit_iff b obj s1 h1, ?_⟩
    rw [is_string_exit_iff b obj s1 h1, is_string_exit_iff b obj s2 h2]
  · intro hb ho
    have ha := slot_aligned_SKIP64 b obj hb ho
    constructor
    · intro c
      rw [get_gc_type_run, if_neg (fun h => h ha)]
      exact fun h => Outcome.noConfusion h
    · intro c
      rw [is_string_run, if_neg (fun h => h.2 ha)]
      exact fun h => Outcome.noConfusion h

/-- C18 (witness): on the 64-bit target the object at `0x1008` exits in
neither function, with the header `0x2001` and with the header `0x2000`. -/
theorem C18_alignment_by_address_witness :
    Build.example64.target = Target.SKIP64 ∧ (0x1008 : Ptr) % 8 = 0 ∧
    (hashField Build.example64 oddHeaderState 0x1008).testBit 31 = false ∧
    (hashField Build.example64 vtableState 0x1008).testBit 31 = false ∧
    vtableSlotValue Build.example64 oddHeaderState 0x1008 ≠
      vtableSlotValue Build.example64 vtableState 0x1008 ∧
    ((SKIP_is_string Build.example64 0x1008 oddHeaderState).1 = Outcome.exit 124 ↔
      (SKIP_is_string Build.example64 0x1008 vtableState).1 = Outcome.exit 124) ∧
    (∀ c, (get_gc_type Build.example64 0x1008 oddHeaderState).1 ≠ Outcome.exit c) ∧
    (∀ c, (SKIP_is_string Build.example64 0x1008 oddHeaderState).1 ≠ Outcome.exit c) :=
  ⟨rfl, by decide, by decide, by decide, by decide,
   ((C18_alignment_by_address Build.example64 0x1008 oddHeaderState vtableState).2.2.2.1
      (by decide) (by decide)).2,
   (C18_alignment_by_address Build.example64 0x1008 oddHeaderState vtableState).2.2.2.2
      rfl (by decide)⟩

/-- C18 (counterexample): on the 32-bit target, where a pointer has 4 bytes,
the object at the 8-byte-aligned address `0x1008` has its header slot at
`0x1004`; with a zero header (tag bit clear) `get_gc_type` exits with 125 and
`is_string` exits with 124. -/
theorem C18_counterexample :
    (0x1008 : Ptr) % 8 = 0 ∧
    get_vtable_ptr Build.example32 0x1008 = 0x1004 ∧
    (hashField Build.example32 Runtime.empty 0x1008).testBit 31 = false ∧
    (get_gc_type Build.example32 0x1008 Runtime.empty).1 = Outcome.exit 125 ∧
    (SKIP_is_string Build.example32 0x1008 Runtime.empty).1 = Outcome.exit 124 := by
  decide

/-- C19: `tag_string_hash` is idempotent: for every 32-bit `h`,
`tag_string_hash(tag_string_hash(h)) == tag_string_hash(h)`, and
`tag_string_hash(h) == h` exactly when bit 31 of `h` is already set. -/
theorem C19_tag_idempotent (h : Nat) (hh : h < 2 ^ 32) :
    sk_tag_string_hash (sk_tag_string_hash h) = sk_tag_string_hash h ∧
    (sk_tag_string_hash h = h ↔ h.testBit 31 = true) := by
  have hlt : sk_tag_string_hash h < 2 ^ 32 := Nat.mod_lt _ (by norm_num)
  constructor
  · rw [tag_lor _ hlt, tag_lor h hh]
    apply Nat.eq_of_testBit_eq
    intro i
    simp only [Nat.testBit_or, Bool.or_assoc, Bool.or_self]
  · constructor
    · intro he
      rw [← he]
      exact tag_testBit h hh
    · intro hbit
      rw [tag_lor h hh, tag_eq_two_pow]
      apply Nat.eq_of_testBit_eq
      intro i
      rw [Nat.testBit_or, Nat.testBit_two_pow]
      by_cases hi : 31 = i
      · subst hi
        rw [hbit]
        rfl
      · simp [hi]

/-- C19 (witness): `5` is changed by tagging and `0x80000005` is not. -/
theorem C19_tag_idempotent_witness :
    (5 : Nat) < 2 ^ 32 ∧ (0x80000005 : Nat) < 2 ^ 32 ∧
    sk_tag_string_hash (sk_tag_string_hash 5) = sk_tag_string_hash 5 ∧
    (sk_tag_string_hash 5 = 5 ↔ (5 : Nat).testBit 31 = true) ∧
    sk_tag_string_hash 0x80000005 = 0x80000005 :=
  ⟨by decide, by decide, (C19_tag_idempotent 5 (by decide)).1,
   (C19_tag_idempotent 5 (by decide)).2,
   (C19_tag_idempotent 0x80000005 (by decide)).2.2 (by decide)⟩
end Skdb
